import Mathlib

/-!
Verification development for the mihonx-runner DEX parser and interpreter.

This file gives a shallow embedding, in Lean 4, of the Rust sources under
`src/src/commonMain/rust/` and proves properties of the embedded code.

Modelling conventions, used consistently below:

* A Rust byte buffer (`&[u8]` / `Vec<u8>`) is a `List Nat` whose entries are
  the byte values.  A Rust `String` is the `List Nat` of its UTF-8 bytes.
* Rust machine integers are `Nat` (for the unsigned types) or `Int` (for the
  signed types), with explicit reinterpretation helpers (`toI8`, `toI16`, ...)
  at the points where the source reinterprets bytes, and explicit `% 2 ^ w`
  where the source can overflow.
* A Rust panic (out-of-bounds `Vec`/slice indexing, `unwrap`/`expect` on
  `None`, a failed `assert!`, arithmetic underflow of `usize`) is modelled by
  `Option`/`none` for pure functions, and by a distinguished `panic` outcome
  for the interpreter loop.
* A Rust loop whose cursor walks a buffer is translated to structural
  recursion on the suffix of the buffer starting at the cursor
  (`data[cursor]` is the head of `data.drop cursor`).
* `usize` subtraction that can underflow (release-mode wrap-around) is
  modelled by `wrapping_sub` below, with the wrap modulus `2 ^ 64`.
* Logging (the `interpreter_log!` / `parser_log!` macros and `println!`) has
  no observable effect in the model and is dropped; no log argument whose
  evaluation can panic differs from an expression the surrounding code
  evaluates anyway.
-/

namespace Mihonx

/-- Model of `usize::MAX + 1`: the wrap modulus of 64-bit Rust release arithmetic. -/
def USIZE_WRAP : Nat := 2 ^ 64

/-- Release-mode wrapping subtraction on `usize` (`a.wrapping_sub b`). -/
def wrapping_sub (a b : Nat) : Nat :=
  (a + (USIZE_WRAP - b % USIZE_WRAP)) % USIZE_WRAP

/-- Reinterpret a byte as Rust `i8` (`i8::from_le_bytes([b])`). -/
def toI8 (b : Nat) : Int :=
  if b < 128 then (b : Int) else (b : Int) - 256

/-- Reinterpret a 16-bit value as Rust `i16`. -/
def toI16 (v : Nat) : Int :=
  if v < 2 ^ 15 then (v : Int) else (v : Int) - 2 ^ 16

/-- Reinterpret a 32-bit value as Rust `i32`. -/
def toI32 (v : Nat) : Int :=
  if v < 2 ^ 31 then (v : Int) else (v : Int) - 2 ^ 32

/-- Reinterpret a 64-bit value as Rust `i64`. -/
def toI64 (v : Nat) : Int :=
  if v < 2  ^ 63 then (v : Int) else (v : Int) - 2 ^ 64

/-- The UTF-8 bytes of an ASCII Lean string literal.  Every string literal in
the Rust source that the model mentions is pure ASCII, for which
`Char.toNat` is the byte value. -/
def ascii (s : String) : List Nat :=
  s.data.map Char.toNat

/-! ## `utils.rs`: fixed-width little-endian readers

`parse_u16`, `parse_i16` and `parse_u64` index `data` directly, so any byte
position at or past the end of the buffer is a panic (`none`).
`parse_u32` and `parse_i32` build a zero-padded 4-byte slice, guarded by the
condition `offset + i <= (data.len() - 1) - offset` from the source, where
the subtractions are `usize` subtractions (wrap-around on underflow). -/

/-- Model of `utils::parse_u16`. -/
def parse_u16 (data : List Nat) (offset : Nat) : Option Nat :=
  match data[offset]?, data[offset + 1]? with
  | some b0, some b1 => some (b0 + 256 * b1)
  | _, _ => none

/-- Model of `utils::parse_i16`. -/
def parse_i16 (data : List Nat) (offset : Nat) : Option Int :=
  match data[offset]?, data[offset + 1]? with
  | some b0, some b1 => some (toI16 (b0 + 256 * b1))
  | _, _ => none

/-- One byte of the zero-padded slice built by `utils::parse_u32` /
`utils::parse_i32`:  `slice[i] = data[offset + i]` when
`offset + i <= available`, else `0`. -/
def u32_slice_byte (data : List Nat) (offset available i : Nat) : Option Nat :=
  if offset + i ≤ available then data[offset + i]? else some 0

/-- Model of `utils::parse_u32`, including its `available = (data.len() - 1) - offset`
bound (two `usize` subtractions). -/
def parse_u32 (data : List Nat) (offset : Nat) : Option Nat :=
  let available := wrapping_sub (wrapping_sub data.length 1) offset
  match u32_slice_byte data offset available 0, u32_slice_byte data offset available 1,
        u32_slice_byte data offset available 2, u32_slice_byte data offset available 3 with
  | some b0, some b1, some b2, some b3 =>
      some (b0 + 256 * b1 + 256 ^ 2 * b2 + 256 ^ 3 * b3)
  | _, _, _, _ => none

/-- Model of `utils::parse_i32` (same slice logic as `parse_u32`). -/
def parse_i32 (data : List Nat) (offset : Nat) : Option Int :=
  (parse_u32 data offset).map toI32

/-- Model of `utils::parse_u64`: eight direct indexing reads. -/
def parse_u64 (data : List Nat) (offset : Nat) : Option Nat :=
  match data[offset]?, data[offset + 1]?, data[offset + 2]?, data[offset + 3]?,
        data[offset + 4]?, data[offset + 5]?, data[offset + 6]?, data[offset + 7]? with
  | some b0, some b1, some b2, some b3, some b4, some b5, some b6, some b7 =>
      some (b0 + 256 * b1 + 256 ^ 2 * b2 + 256 ^ 3 * b3 +
            256 ^ 4 * b4 + 256 ^ 5 * b5 + 256 ^ 6 * b6 + 256 ^ 7 * b7)
  | _, _, _, _, _, _, _, _ => none

/-- Model of `utils::get_lower_bits (value, num_bits)`: `value & ((1 << num_bits) - 1)`. -/
def get_lower_bits (value num_bits : Nat) : Nat :=
  value &&& ((1 <<< num_bits) - 1)

/-- The reading discipline the specification describes for the fixed-width
readers: the little-endian integer of `width` bytes starting at `p`, where a
byte position at or past the end of the buffer contributes `0`.  (Stated from
the specification text, for comparison with the functions above.) -/
def spec_zero_padded_le (data : List Nat) (p width : Nat) : Nat :=
  (List.range width).foldr (fun i acc => (data[p + i]?).getD 0 * 256 ^ i + acc) 0

/-! ## `parser/uleb.rs`: ULEB128 -/

/-- The loop body of `uleb::read_uleb128`, walking the suffix of the buffer
that starts at the read position.  Returns the decoded value and the number
of bytes consumed.  Reading past the end of the buffer is a panic (`none`).
The source accumulates with `result |= ((byte & 0x7F) as u32) << shift`; the
`u32` shift keeps the low 32 bits, and in release mode an oversized shift
amount is masked by 32 (both are modelled explicitly). -/
def uleb_loop : List Nat → Nat → Nat → Option (Nat × Nat)
  | [], _, _ => none
  | b :: rest, result, shift =>
      let result := result ||| (((b &&& 0x7F) <<< (shift % 32)) % 2 ^ 32)
      if b &&& 0x80 = 0 then
        some (result, 1)
      else
        (uleb_loop rest result (shift + 7)).map (fun p => (p.1, p.2 + 1))

/-- Model of `uleb::read_uleb128 (data, offset)`: decoded value and post-read offset. -/
def read_uleb128 (data : List Nat) (offset : Nat) : Option (Nat × Nat) :=
  (uleb_loop (data.drop offset) 0 0).map (fun p => (p.1, offset + p.2))

/-- Canonical ULEB128 encoding: 7 bits per byte, low byte first, continuation
bit in bit 7.  (Stated from the specification; the repository has no encoder.) -/
def encode_uleb128 (n : Nat) : List Nat :=
  if n < 128 then [n] else (n % 128 + 128) :: encode_uleb128 (n / 128)
termination_by n
decreasing_by exact Nat.div_lt_self (by omega) (by omega)

/-! ## `parser/strings.rs`: MUTF-8 string decoding -/

/-- The byte-accumulation loop of `strings::parse_string_at_offset`, on the
suffix of the data section that starts at the post-ULEB cursor: accumulate
bytes until a NUL terminator (or the end of the buffer), replacing each
two-byte sequence `C0 80` by a single NUL byte. -/
def collect_string_bytes : List Nat → List Nat
  | [] => []
  | b :: rest =>
      if b = 0 then []
      else
        match rest with
        | r1 :: rtail =>
            if b = 0xC0 ∧ r1 = 0x80 then 0 :: collect_string_bytes rtail
            else b :: collect_string_bytes (r1 :: rtail)
        | [] => [b]

/-- Is a byte a UTF-8 continuation byte (`0x80..=0xBF`)? -/
def utf8_cont (b : Nat) : Bool :=
  0x80 ≤ b ∧ b ≤ 0xBF

/-- One step of the UTF-8 validation automaton used by Rust
`String::from_utf8` (RFC 3629: overlong encodings, surrogates and values
above `U+10FFFF` are rejected).  State `0` is "between characters"; states
`1`, `2`, `3` expect that many plain continuation bytes; states `4`–`7` are
the restricted second bytes after `E0`, `ED`, `F0`, `F4`; anything else is
the absorbing reject state. -/
def utf8_step (state b : Nat) : Nat :=
  if state = 0 then
    if b < 0x80 then 0
    else if 0xC2 ≤ b ∧ b ≤ 0xDF then 1
    else if b = 0xE0 then 4
    else if b = 0xED then 5
    else if (0xE1 ≤ b ∧ b ≤ 0xEC) ∨ (0xEE ≤ b ∧ b ≤ 0xEF) then 2
    else if b = 0xF0 then 6
    else if 0xF1 ≤ b ∧ b ≤ 0xF3 then 3
    else if b = 0xF4 then 7
    else 99
  else if state = 1 then (if utf8_cont b then 0 else 99)
  else if state = 2 then (if utf8_cont b then 1 else 99)
  else if state = 3 then (if utf8_cont b then 2 else 99)
  else if state = 4 then (if 0xA0 ≤ b ∧ b ≤ 0xBF then 1 else 99)
  else if state = 5 then (if 0x80 ≤ b ∧ b ≤ 0x9F then 1 else 99)
  else if state = 6 then (if 0x90 ≤ b ∧ b ≤ 0xBF then 2 else 99)
  else if state = 7 then (if 0x80 ≤ b ∧ b ≤ 0x8F then 2 else 99)
  else 99

/-- Run the UTF-8 validation automaton; accept when it ends between
characters. -/
def utf8_valid_from (state : Nat) : List Nat → Bool
  | [] => state = 0
  | b :: rest => utf8_valid_from (utf8_step state b) rest

/-- UTF-8 validity of a byte sequence, exactly the check performed by Rust
`String::from_utf8`. -/
def utf8_valid (l : List Nat) : Bool :=
  utf8_valid_from 0 l

/-- The sentinel produced when the accumulated bytes are not valid UTF-8. -/
def utf8_fail_sentinel : List Nat :=
  ascii "UTF-8 decode failed"

/-- Model of `String::from_utf8(bytes).unwrap_or_else(|_| "UTF-8 decode failed")`. -/
def utf8_or_sentinel (bytes : List Nat) : List Nat :=
  if utf8_valid bytes then bytes else utf8_fail_sentinel

/-! ## `types.rs`: the data model -/

/-- Model of `types::DexValue`.  `Float`/`Double` carry the raw IEEE bit pattern (the
source only ever reinterprets bytes, never computes with the floats), and
`Type` is renamed `Ty` because `Type` is a Lean keyword. -/
inductive DexValue where
  | Byte (v : ℤ)
  | Short (v : ℤ)
  | Char (v : ℕ)
  | Int (v : ℤ)
  | Long (v : ℤ)
  | Float (bits : ℕ)
  | Double (bits : ℕ)
  | Boolean (b : Bool)
  | Null
  | String (s : List ℕ)
  | Ty (s : List ℕ)
  | Field (s : List ℕ)
  | Method (s : List ℕ)
  | MethodType (s : List ℕ)
  | MethodHandle (v : ℕ)
  | Enum (s : List ℕ)
  | Array (xs : List DexValue)
  | Annotation (entries : List (List ℕ × DexValue))
  | Object (id : ℕ)
  | KotlinObject
  | Void

/-- Is an `f32` bit pattern a NaN? -/
def f32_is_nan (bits : Nat) : Bool :=
  (bits / 2 ^ 23) % 2 ^ 8 = 0xFF ∧ bits % 2 ^ 23 ≠ 0

/-- Rust `f32` equality on bit patterns: `NaN != NaN`, `0.0 == -0.0`, and
distinct non-NaN patterns denote distinct values. -/
def f32_eq (a b : Nat) : Bool :=
  if f32_is_nan a ∨ f32_is_nan b then false
  else if a % 2 ^ 31 = 0 ∧ b % 2 ^ 31 = 0 then true
  else a = b

/-- Is an `f64` bit pattern a NaN? -/
def f64_is_nan (bits : Nat) : Bool :=
  (bits / 2 ^ 52) % 2 ^ 11 = 0x7FF ∧ bits % 2 ^ 52 ≠ 0

/-- Rust `f64` equality on bit patterns. -/
def f64_eq (a b : Nat) : Bool :=
  if f64_is_nan a ∨ f64_is_nan b then false
  else if a % 2 ^ 63 = 0 ∧ b % 2 ^ 63 = 0 then true
  else a = b

mutual

/-- The derived `PartialEq` on `types::DexValue` (structural, with Rust float
semantics on the `Float`/`Double` payloads). -/
def dexEq : DexValue → DexValue → Bool
  | .Byte a, .Byte b => a = b
  | .Short a, .Short b => a = b
  | .Char a, .Char b => a = b
  | .Int a, .Int b => a = b
  | .Long a, .Long b => a = b
  | .Float a, .Float b => f32_eq a b
  | .Double a, .Double b => f64_eq a b
  | .Boolean a, .Boolean b => a = b
  | .Null, .Null => true
  | .String a, .String b => a = b
  | .Ty a, .Ty b => a = b
  | .Field a, .Field b => a = b
  | .Method a, .Method b => a = b
  | .MethodType a, .MethodType b => a = b
  | .MethodHandle a, .MethodHandle b => a = b
  | .Enum a, .Enum b => a = b
  | .Array xs, .Array ys => dexEqList xs ys
  | DexValue.Annotation xs, DexValue.Annotation ys => dexEqPairs xs ys
  | .Object a, .Object b => a = b
  | .KotlinObject, .KotlinObject => true
  | .Void, .Void => true
  | _, _ => false

/-- Element-wise `PartialEq` on `Vec<DexValue>`. -/
def dexEqList : List DexValue → List DexValue → Bool
  | [], [] => true
  | x :: xs, y :: ys => dexEq x y && dexEqList xs ys
  | _, _ => false

/-- Element-wise `PartialEq` on `Vec<(String, DexValue)>`. -/
def dexEqPairs : List (List ℕ × DexValue) → List (List ℕ × DexValue) → Bool
  | [], [] => true
  | (k1, v1) :: xs, (k2, v2) :: ys => k1 = k2 && dexEq v1 v2 && dexEqPairs xs ys
  | _, _ => false

end

/-- Model of `types::DexValue::to_boolean`. -/
def DexValue.to_boolean : DexValue → Option DexValue
  | .Int v => some (.Boolean (v ≠ 0))
  | _ => none

/-- Model of `types::Object`.  `fields` and `methods` are the `HashMap`s, modelled as
association lists (iteration order of a `HashMap` is unspecified in Rust; the
model iterates in list order).  A native-method slot holds an opaque handle
(`Nat`), interpreted by the host environment. -/
structure Object where
  class_name : List Nat
  fields : List (List Nat × DexValue)
  methods : List (List Nat × Option Nat)

/-- Model of `types::Frame`.  The register vector, the pending-result slot `temp`, the
owning class index and method name, and the program counter. -/
structure Frame where
  registers : List DexValue
  temp : Option DexValue
  class_idx : Nat
  method_name : List Nat
  pc : Nat

/-- Model of `types::DexField`. -/
structure DexField where
  ty : List Nat
  value : Option DexValue
  is_static : Bool

/-- Model of `types::Header_Item` (only `magic` and `data_off` are consumed by the
functions embedded here; the remaining fields are carried for completeness). -/
structure Header_Item where
  magic : List Nat
  checksum : Nat := 0
  signature : List Nat := []
  file_size : Nat := 0
  header_size : Nat := 0
  endian_tag : Nat := 0
  link_size : Nat := 0
  link_off : Nat := 0
  map_off : Nat := 0
  string_ids_size : Nat := 0
  string_ids_off : Nat := 0
  type_ids_size : Nat := 0
  type_ids_off : Nat := 0
  proto_ids_size : Nat := 0
  proto_ids_off : Nat := 0
  field_ids_size : Nat := 0
  field_ids_off : Nat := 0
  method_ids_size : Nat := 0
  method_ids_off : Nat := 0
  class_defs_size : Nat := 0
  class_defs_off : Nat := 0
  data_size : Nat := 0
  data_off : Nat := 0

/-- Model of `types::Proto_Id_Item`. -/
structure Proto_Id_Item where
  shorty_idx : Nat
  return_type_idx : Nat
  parameters_off : Nat

/-- Model of `types::Field_Id_Item`. -/
structure Field_Id_Item where
  class_idx : Nat
  type_idx : Nat
  name_idx : Nat

/-- Model of `types::Method_Id_Item`. -/
structure Method_Id_Item where
  class_idx : Nat
  proto_idx : Nat
  name_idx : Nat

/-- Model of `types::NO_INDEX`. -/
def NO_INDEX : Nat := 0xffffffff

/-- Model of `types::Class_Def_Item`. -/
structure Class_Def_Item where
  class_idx : Nat
  access_flags : Nat
  superclass_idx : Nat
  interfaces_off : Nat
  source_file_idx : Nat
  annotations_off : Nat
  class_data_off : Nat
  static_values_off : Nat

/-- Model of `types::DexContainer`. -/
structure DexContainer where
  header_item : Header_Item
  string_id_items : List Nat
  type_id_items : List Nat
  proto_id_items : List Proto_Id_Item
  field_id_items : List Field_Id_Item
  method_id_items : List Method_Id_Item
  class_defs_items : List Class_Def_Item

/-- Model of `DexContainer::string_offset`: safe lookup `string_id -> data offset`. -/
def DexContainer.string_offset (c : DexContainer) (string_id : Nat) : Option Nat :=
  c.string_id_items[string_id]?

/-- Model of `DexContainer::type_to_string_id`. -/
def DexContainer.type_to_string_id (c : DexContainer) (type_id : Nat) : Option Nat :=
  c.type_id_items[type_id]?

/-- Model of `DexContainer::type_to_string_offset`. -/
def DexContainer.type_to_string_offset (c : DexContainer) (type_id : Nat) : Option Nat :=
  (c.type_to_string_id type_id).bind (fun sid => c.string_offset sid)

/-- Model of `DexContainer::method_id_to_string_offset`.  The source `unwrap`s the
`method_id_items.get(..)` lookup (outer `none` = panic) and then returns the
`Option` produced by `string_offset`. -/
def DexContainer.method_id_to_string_offset (c : DexContainer) (method_id : Nat) :
    Option (Option Nat) :=
  (c.method_id_items[method_id]?).map (fun m => c.string_offset m.name_idx)

/-- Model of `DexContainer::method_id_to_class_string_offset` (despite its name it
returns the `class_idx` of the method-id item; `unwrap` panic = `none`). -/
def DexContainer.method_id_to_class_string_offset (c : DexContainer) (method_id : Nat) :
    Option Nat :=
  (c.method_id_items[method_id]?).map (fun m => m.class_idx)

/-- Model of `strings::parse_string_at_offset`.  `checked_sub(...).expect(...)` panics
(`none`) when the offset precedes the data section; a ULEB read past the end
of the buffer also panics. -/
def parse_string_at_offset (data : List Nat) (string_offset : Nat)
    (header_item : Header_Item) (i : Nat) : Option (Nat × List Nat) :=
  if string_offset < header_item.data_off then none
  else
    match read_uleb128 data (string_offset - header_item.data_off) with
    | none => none
    | some (_utf16_size, cursor) =>
        some (i, utf8_or_sentinel (collect_string_bytes (data.drop cursor)))

/-- Model of `class::get_name_of_class`: two direct (panicking) table indexings
followed by a string decode. -/
def get_name_of_class (id : Nat) (data : List Nat) (header_item : Header_Item)
    (type_id_items string_id_items : List Nat) : Option (List Nat) :=
  match type_id_items[id]? with
  | none => none
  | some string_idx =>
      match string_id_items[string_idx]? with
      | none => none
      | some string_offset =>
          (parse_string_at_offset data string_offset header_item string_idx).map (fun p => p.2)

/-! ## `parser/class.rs`: encoded values -/

/-- Read `size` bytes `data[cursor], ..., data[cursor + size - 1]` (panic
= `none` on an out-of-bounds read). -/
def read_bytes (data : List Nat) (cursor size : Nat) : Option (List Nat) :=
  (List.range size).mapM (fun i => data[cursor + i]?)

/-- Little-endian value of a byte list (missing high bytes contribute 0,
matching the zero-initialised `buf` arrays of the source). -/
def le_value : List Nat → Nat
  | [] => 0
  | b :: rest => b + 256 * le_value rest

/-- The `buf` pattern of `class::parse_encoded_value`: copy `size` bytes into
a zero-initialised `width`-byte array and take its little-endian value.
When `size > width` the source writes past the end of `buf`, a panic. -/
def read_le_buf (data : List Nat) (cursor size width : Nat) : Option Nat :=
  if size ≤ width then (read_bytes data cursor size).map le_value else none

/-- The `val |= (data[cursor + i] as u32) << (8 * i)` accumulation of the
string/type arms of `class::parse_encoded_value` (release semantics: the
`u32` shift masks its amount by 32 and keeps the low 32 bits). -/
def read_u32_or_le (data : List Nat) (cursor size : Nat) : Option Nat :=
  (read_bytes data cursor size).map
    (fun bs => (bs.enum.foldl (fun acc p => acc ||| ((p.2 <<< ((8 * p.1) % 32)) % 2 ^ 32)) 0))

/-- Model of `class::parse_encoded_value`: returns the decoded value and the post-read
cursor, `none` on a panic. -/
def parse_encoded_value (data : List Nat) (offset : Nat) (container : DexContainer) :
    Option (DexValue × Nat) :=
  match data[offset]? with
  | none => none
  | some byte =>
      let cursor := offset + 1
      let val_type := byte &&& 0x1f
      let val_arg := (byte >>> 5) &&& 0x07
      let size := val_arg + 1
      if val_type = 0x00 then
        match data[cursor]? with
        | none => none
        | some v => some (.Int (toI8 v), cursor + 1)
      else if val_type = 0x02 then
        (read_le_buf data cursor size 2).map (fun v => (.Int (toI16 v), cursor + size))
      else if val_type = 0x03 then
        (read_le_buf data cursor size 2).map (fun v => (.Char v, cursor + size))
      else if val_type = 0x04 then
        (read_le_buf data cursor size 4).map (fun v => (.Int (toI32 v), cursor + size))
      else if val_type = 0x06 then
        (read_le_buf data cursor size 8).map (fun v => (.Long (toI64 v), cursor + size))
      else if val_type = 0x10 then
        (read_le_buf data cursor size 4).map (fun v => (.Float v, cursor + size))
      else if val_type = 0x11 then
        (read_le_buf data cursor size 8).map (fun v => (.Double v, cursor + size))
      else if val_type = 0x17 then
        match read_u32_or_le data cursor size with
        | none => none
        | some val =>
            match container.string_offset val with
            | none => some (.String (ascii "<unknown>"), cursor + size)
            | some off =>
                match parse_string_at_offset data off container.header_item 0 with
                | none => none
                | some (_, s) => some (.String s, cursor + size)
      else if val_type = 0x18 then
        match read_u32_or_le data cursor size with
        | none => none
        | some val =>
            match container.type_to_string_offset val with
            | none => some (.Ty (ascii "<unknown>"), cursor + size)
            | some off =>
                match parse_string_at_offset data off container.header_item 0 with
                | none => none
                | some (_, s) => some (.Ty s, cursor + size)
      else if val_type = 0x1e then
        some (.Null, cursor)
      else if val_type = 0x1f then
        some (.Boolean (val_arg != 0), cursor)
      else
        some (.Null, cursor)

/-- The set of 5-bit type tags for which `class::parse_encoded_value` has a
dedicated arm. -/
def recognized_tags : List Nat :=
  [0x00, 0x02, 0x03, 0x04, 0x06, 0x10, 0x11, 0x17, 0x18, 0x1e, 0x1f]

/-! ## `lib.rs`: the DEX version string -/

/-- Substring test on byte strings (Rust `str::contains` with a literal
pattern). -/
def contains_sub (hay needle : List Nat) : Bool :=
  match hay with
  | [] => needle.isEmpty
  | _ :: t => needle.isPrefixOf hay || contains_sub t needle

/-- Lower-case hex digits of a value (used by `\u` escapes in Rust `Debug`
formatting of a string). -/
def hex_digits (n : Nat) : List Nat :=
  let digit := fun d => if d < 10 then 48 + d else 87 + d
  if n < 16 then [digit n] else hex_digits (n / 16) ++ [digit (n % 16)]
termination_by n
decreasing_by exact Nat.div_lt_self (by omega) (by omega)

/-- Rust `Debug` escaping of one ASCII byte of a string (`char::escape_debug`
restricted to the byte range the claims exercise): quote, backslash, newline,
carriage return, tab and NUL get two-character escapes, other C0 controls and
DEL get a `\u` escape, and the remaining bytes are kept as they are.
(Multi-byte printable characters are kept verbatim by `escape_debug` as well,
so byte-wise identity is faithful for them; the rare grapheme-extend escapes
are outside the inputs considered here.) -/
def escape_debug_byte (b : Nat) : List Nat :=
  if b = 0x22 then [0x5C, 0x22]
  else if b = 0x5C then [0x5C, 0x5C]
  else if b = 0x0A then [0x5C, 0x6E]
  else if b = 0x0D then [0x5C, 0x72]
  else if b = 0x09 then [0x5C, 0x74]
  else if b = 0x00 then [0x5C, 0x30]
  else if b < 0x20 ∨ b = 0x7F then [0x5C, 0x75, 0x7B] ++ hex_digits b ++ [0x7D]
  else [b]

/-- Model of `format!("{:?}", ..)` of an `Ok(String)` value: `Ok("<escaped>")`. -/
def debug_ok_string (bytes : List Nat) : List Nat :=
  ascii "Ok(" ++ [0x22] ++ bytes.flatMap escape_debug_byte ++ [0x22, 0x29]

/-- Model of `lib.rs::Java_mihonx_runner_RustBridge_rustGetDexVersion`, as a function
of the header magic: `format!("v{:?}", String::from_utf8(magic[4..6].into()))`.
The slice `magic[4..6]` takes the two bytes at indices 4 and 5 and panics
(`none`) when the magic is shorter than 6 bytes.  The `Err` branch of the
`Result` (magic bytes 4..5 not valid UTF-8) is also mapped to `none`: its
`Debug` text (a `FromUtf8Error` record) is not modelled, and no claim
exercises it. -/
def rustGetDexVersion (magic : List Nat) : Option (List Nat) :=
  if magic.length < 6 then none
  else
    let slice := (magic.drop 4).take 2
    if utf8_valid slice then some (ascii "v" ++ debug_ok_string slice)
    else none

/-! ## `types.rs`: the decoded instruction set -/

set_option maxHeartbeats 2000000

/-- Model of `types::Instruction`, one constructor per variant, with the field names of
the source.  `u8`/`u16`/`u32`/`u64` fields are `ℕ`, `i8`/`i16`/`i32` fields
are `ℤ`. -/
inductive Instruction where
  | Nop
  | MoveObject (dst src : ℕ)
  | Move (dst src : ℕ)
  | Move16 (dst src : ℕ)
  | MoveWide (dst src : ℕ)
  | MoveWide16 (dst src : ℕ)
  | MoveWideFrom16 (dst src : ℕ)
  | MoveObjectFrom16 (dst src : ℕ)
  | MoveObject16 (dst src : ℕ)
  | MoveFrom16 (dst src : ℕ)
  | MoveException (dst : ℕ)
  | MoveResult (dst : ℕ)
  | MoveResultWide (dst : ℕ)
  | MoveResultObject (dst : ℕ)
  | ConstString (dest string_idx : ℕ)
  | ConstStringJumbo (dest string_idx : ℕ)
  | ReturnVoid
  | Return (reg : ℕ)
  | ReturnWide (reg : ℕ)
  | ReturnObject (src : ℕ)
  | Const4Bit (dst : ℕ) (signed_int : ℤ)
  | Const16Bit (dst : ℕ) (signed_int : ℤ)
  | Const32Bit (dst literal : ℕ)
  | ConstWide16Bit (dst : ℕ) (signed_int : ℤ)
  | ConstWide16BitHigh (dst : ℕ) (signed_int : ℤ)
  | ConstWide32 (dst : ℕ) (literal : ℤ)
  | ConstWide64Bit (dst literal : ℕ)
  | ConstHigh16 (dst : ℕ) (literal : ℤ)
  | Const (dst signed_int : ℕ)
  | ConstClass (dst type_idx : ℕ)
  | InstanceOf (dst ref_bearing_reg type_idx : ℕ)
  | MonitorEnter (ref_bearing_reg : ℕ)
  | MonitorExit (ref_bearing_reg : ℕ)
  | CheckCast (ref_bearing_reg type_idx : ℕ)
  | ArrayLength (dst array_ref_bearing_reg : ℕ)
  | NewInstance (dst type_idx : ℕ)
  | NewArray (dst size type_idx : ℕ)
  | FilledNewArray (argc : ℕ) (args : List ℕ) (type_idx : ℕ)
  | FilledNewArrayRange (count type_idx first_arg_reg : ℕ)
  | FilledArrayData (array_ref : ℕ) (signed_fake_branch_off : ℤ)
  | Throw (reg : ℕ)
  | Goto (signed_branch_off : ℤ)
  | Goto16 (signed_branch_off : ℤ)
  | TestIfEqual (first_reg second_reg : ℕ) (signed_branch_off : ℤ)
  | TestIfNotEqual (first_reg second_reg : ℕ) (signed_branch_off : ℤ)
  | TestIfLessThan (first_reg second_reg : ℕ) (signed_branch_off : ℤ)
  | TestIfGreaterEqual (first_reg second_reg : ℕ) (signed_branch_off : ℤ)
  | TestIfGreaterThan (first_reg second_reg : ℕ) (signed_branch_off : ℤ)
  | TestIfLessEqual (first_reg second_reg : ℕ) (signed_branch_off : ℤ)
  | BranchIfEqualZero (test_reg : ℕ) (signed_branch_off : ℤ)
  | BranchIfNotEqualZero (test_reg : ℕ) (signed_branch_off : ℤ)
  | BranchIfLessThanZero (test_reg : ℕ) (signed_branch_off : ℤ)
  | BranchIfGreaterEqualZero (test_reg : ℕ) (signed_branch_off : ℤ)
  | BranchIfGreaterThanZero (test_reg : ℕ) (signed_branch_off : ℤ)
  | BranchIfLessEqualZero (test_reg : ℕ) (signed_branch_off : ℤ)
  | PackedSwitch (test_reg : ℕ) (signed_fake_branch_off : ℤ)
  | SparseSwitch (test_reg : ℕ) (signed_fake_branch_off : ℤ)
  | CmpLessFloat (dst first_reg second_reg : ℕ)
  | CmpGreaterFloat (dst first_reg second_reg : ℕ)
  | CmpLessDouble (dst first_reg second_reg : ℕ)
  | CmpGreaterDouble (dst first_reg second_reg : ℕ)
  | CmpLong (dst first_reg second_reg : ℕ)
  | AddInt8Lit8 (dst src : ℕ) (signed_int_const : ℤ)
  | RSubInt8Lit8 (dst src : ℕ) (signed_int_const : ℤ)
  | MulInt8Lit8 (dst src : ℕ) (signed_int_const : ℤ)
  | DivInt8Lit8 (dst src : ℕ) (signed_int_const : ℤ)
  | RemInt8Lit8 (dst src : ℕ) (signed_int_const : ℤ)
  | AndInt8Lit8 (dst src : ℕ) (signed_int_const : ℤ)
  | OrInt8Lit8 (dst src : ℕ) (signed_int_const : ℤ)
  | XorInt8Lit8 (dst src : ℕ) (signed_int_const : ℤ)
  | ShLInt8Lit8 (dst src : ℕ) (signed_int_const : ℤ)
  | ShRInt8Lit8 (dst src : ℕ) (signed_int_const : ℤ)
  | UShRInt8Lit8 (dst src : ℕ) (signed_int_const : ℤ)
  | AddIntLit16 (dst src : ℕ) (literal : ℤ)
  | RSubIntLit16 (dst src : ℕ) (literal : ℤ)
  | MulIntLit16 (dst src : ℕ) (literal : ℤ)
  | DivIntLit16 (dst src : ℕ) (literal : ℤ)
  | RemIntLit16 (dst src : ℕ) (literal : ℤ)
  | AndIntLit16 (dst src : ℕ) (literal : ℤ)
  | OrIntLit16 (dst src : ℕ) (literal : ℤ)
  | XorIntLit16 (dst src : ℕ) (literal : ℤ)
  | SGet (src static_field_idx : ℕ)
  | SGetWide (src static_field_idx : ℕ)
  | SGetObject (src static_field_idx : ℕ)
  | SGetBoolean (src static_field_idx : ℕ)
  | SGetByte (src static_field_idx : ℕ)
  | SGetChar (src static_field_idx : ℕ)
  | SGetShort (src static_field_idx : ℕ)
  | SPut (src static_field_idx : ℕ)
  | SPutWide (src static_field_idx : ℕ)
  | SPutObject (src static_field_idx : ℕ)
  | SPutBoolean (src static_field_idx : ℕ)
  | SPutByte (src static_field_idx : ℕ)
  | SPutChar (src static_field_idx : ℕ)
  | SPutShort (src static_field_idx : ℕ)
  | AGet (src array_reg index_reg : ℕ)
  | AGetWide (src array_reg index_reg : ℕ)
  | AGetObject (src array_reg index_reg : ℕ)
  | AGetBoolean (src array_reg index_reg : ℕ)
  | AGetByte (src array_reg index_reg : ℕ)
  | AGetChar (src array_reg index_reg : ℕ)
  | AGetShort (src array_reg index_reg : ℕ)
  | APut (src array_reg index_reg : ℕ)
  | APutWide (src array_reg index_reg : ℕ)
  | APutObject (src array_reg index_reg : ℕ)
  | APutBoolean (src array_reg index_reg : ℕ)
  | APutByte (src array_reg index_reg : ℕ)
  | APutChar (src array_reg index_reg : ℕ)
  | APutShort (src array_reg index_reg : ℕ)
  | IGet (src obj instance_field_idx : ℕ)
  | IGetWide (src obj instance_field_idx : ℕ)
  | IGetObject (src obj instance_field_idx : ℕ)
  | IGetBoolean (src obj instance_field_idx : ℕ)
  | IGetByte (src obj instance_field_idx : ℕ)
  | IGetChar (src obj instance_field_idx : ℕ)
  | IGetShort (src obj instance_field_idx : ℕ)
  | IPut (src obj instance_field_idx : ℕ)
  | IPutWide (src obj instance_field_idx : ℕ)
  | IPutObject (src obj instance_field_idx : ℕ)
  | IPutBoolean (src obj instance_field_idx : ℕ)
  | IPutByte (src obj instance_field_idx : ℕ)
  | IPutChar (src obj instance_field_idx : ℕ)
  | IPutShort (src obj instance_field_idx : ℕ)
  | AddInt2Addr (dst_and_first_src second_src : ℕ)
  | SubInt2Addr (dst_and_first_src second_src : ℕ)
  | MulInt2Addr (dst_and_first_src second_src : ℕ)
  | DivInt2Addr (dst_and_first_src second_src : ℕ)
  | RemInt2Addr (dst_and_first_src second_src : ℕ)
  | AndInt2Addr (dst_and_first_src second_src : ℕ)
  | OrInt2Addr (dst_and_first_src second_src : ℕ)
  | XorInt2Addr (dst_and_first_src second_src : ℕ)
  | ShlInt2Addr (dst_and_first_src second_src : ℕ)
  | ShrInt2Addr (dst_and_first_src second_src : ℕ)
  | UshrInt2Addr (dst_and_first_src second_src : ℕ)
  | AddLong2Addr (dst_and_first_src second_src : ℕ)
  | SubLong2Addr (dst_and_first_src second_src : ℕ)
  | MulLong2Addr (dst_and_first_src second_src : ℕ)
  | DivLong2Addr (dst_and_first_src second_src : ℕ)
  | RemLong2Addr (dst_and_first_src second_src : ℕ)
  | AndLong2Addr (dst_and_first_src second_src : ℕ)
  | OrLong2Addr (dst_and_first_src second_src : ℕ)
  | XorLong2Addr (dst_and_first_src second_src : ℕ)
  | ShlLong2Addr (dst_and_first_src second_src : ℕ)
  | ShrLong2Addr (dst_and_first_src second_src : ℕ)
  | UshrLong2Addr (dst_and_first_src second_src : ℕ)
  | AddFloat2Addr (dst_and_first_src second_src : ℕ)
  | SubFloat2Addr (dst_and_first_src second_src : ℕ)
  | MulFloat2Addr (dst_and_first_src second_src : ℕ)
  | DivFloat2Addr (dst_and_first_src second_src : ℕ)
  | RemFloat2Addr (dst_and_first_src second_src : ℕ)
  | AddDouble2Addr (dst_and_first_src second_src : ℕ)
  | SubDouble2Addr (dst_and_first_src second_src : ℕ)
  | MulDouble2Addr (dst_and_first_src second_src : ℕ)
  | DivDouble2Addr (dst_and_first_src second_src : ℕ)
  | RemDouble2Addr (dst_and_first_src second_src : ℕ)
  | AddInt (dst first_src second_src : ℕ)
  | SubInt (dst first_src second_src : ℕ)
  | MulInt (dst first_src second_src : ℕ)
  | DivInt (dst first_src second_src : ℕ)
  | RemInt (dst first_src second_src : ℕ)
  | AndInt (dst first_src second_src : ℕ)
  | OrInt (dst first_src second_src : ℕ)
  | XorInt (dst first_src second_src : ℕ)
  | ShLInt (dst first_src second_src : ℕ)
  | ShRInt (dst first_src second_src : ℕ)
  | UShRInt (dst first_src second_src : ℕ)
  | AddLong (dst first_src second_src : ℕ)
  | SubLong (dst first_src second_src : ℕ)
  | MulLong (dst first_src second_src : ℕ)
  | DivLong (dst first_src second_src : ℕ)
  | RemLong (dst first_src second_src : ℕ)
  | AndLong (dst first_src second_src : ℕ)
  | OrLong (dst first_src second_src : ℕ)
  | XorLong (dst first_src second_src : ℕ)
  | ShLLong (dst first_src second_src : ℕ)
  | ShRLong (dst first_src second_src : ℕ)
  | UShRLong (dst first_src second_src : ℕ)
  | AddFloat (dst first_src second_src : ℕ)
  | SubFloat (dst first_src second_src : ℕ)
  | MulFloat (dst first_src second_src : ℕ)
  | DivFloat (dst first_src second_src : ℕ)
  | RemFloat (dst first_src second_src : ℕ)
  | AddDouble (dst first_src second_src : ℕ)
  | SubDouble (dst first_src second_src : ℕ)
  | MulDouble (dst first_src second_src : ℕ)
  | DivDouble (dst first_src second_src : ℕ)
  | RemDouble (dst first_src second_src : ℕ)
  | NegInt (dst src : ℕ)
  | NotInt (dst src : ℕ)
  | NegLong (dst src : ℕ)
  | NotLong (dst src : ℕ)
  | NegFloat (dst src : ℕ)
  | NegDouble (dst src : ℕ)
  | IntToLong (dst src : ℕ)
  | IntToFloat (dst src : ℕ)
  | IntToDouble (dst src : ℕ)
  | LongToInt (dst src : ℕ)
  | LongToFloat (dst src : ℕ)
  | LongToDouble (dst src : ℕ)
  | FloatToInt (dst src : ℕ)
  | FloatToLong (dst src : ℕ)
  | FloatToDouble (dst src : ℕ)
  | DoubleToInt (dst src : ℕ)
  | DoubleToLong (dst src : ℕ)
  | DoubleToFloat (dst src : ℕ)
  | IntToByte (dst src : ℕ)
  | IntToChar (dst src : ℕ)
  | IntToShort (dst src : ℕ)
  | InvokeVirtualRange (count type_idx first_arg_reg : ℕ)
  | InvokeSuperRange (count type_idx first_arg_reg : ℕ)
  | InvokeDirectRange (count type_idx first_arg_reg : ℕ)
  | InvokeStaticRange (count type_idx first_arg_reg : ℕ)
  | InvokeInterfaceRange (count type_idx first_arg_reg : ℕ)
  | InvokeVirtual (argc : ℕ) (args : List ℕ) (method_idx : ℕ)
  | InvokeSuper (argc : ℕ) (args : List ℕ) (method_idx : ℕ)
  | InvokeDirect (argc : ℕ) (args : List ℕ) (method_idx : ℕ)
  | InvokeStatic (argc : ℕ) (args : List ℕ) (method_idx : ℕ)
  | InvokeInterface (argc : ℕ) (args : List ℕ) (method_idx : ℕ)
  | InvokeCustomRange (count call_site_ref first_arg_reg : ℕ)
  | ConstMethodHandle (dst method_handle_idx : ℕ)
  | ConstMethodType (dst method_proto_ref : ℕ)

/-- Model of `types::DexMethod`. -/
structure DexMethod where
  name : List Nat
  return_type : List Nat
  parameters : List (List Nat)
  registers : Nat
  instructions : List Instruction

/-- Model of `types::DexClass`.  The four `HashMap`s are association lists. -/
structure DexClass where
  name : List Nat
  super_class : Option (List Nat)
  static_fields : List (List Nat × DexField)
  instance_fields : List (List Nat × DexField)
  methods : List (List Nat × DexMethod)

/-! ## `parser/class.rs`: the instruction decoder (`parse_instructions`)

Each opcode arm of the source is transcribed with its exact byte reads and
cursor advances (including the handful of arms whose advances do not match
the DEX format widths).  A decode step returns the optionally-emitted
instruction and the next cursor; `none` is a panic (out-of-bounds read or the
unreachable-arm `assert!`). -/

/-- The duplicated argument-register block of the `filled-new-array` and
`invoke-*` arms: iterate `b` over `0..(argc - 1).div_ceil(2)`, pushing the
high nibble of `args_slice[b]` and, when `argc` is even, also its low
nibble. -/
def decode_arg_regs_go (argc : Nat) (args_slice : List Nat) (b : Nat) :
    Nat → Option (List Nat)
  | 0 => some []
  | count + 1 =>
      match args_slice[b]? with
      | none => none
      | some byte =>
          (decode_arg_regs_go argc args_slice (b + 1) count).map (fun rest =>
            if argc % 2 = 0 then (byte >>> 4) :: get_lower_bits byte 4 :: rest
            else (byte >>> 4) :: rest)

/-- Model of `if argument_count > 0 { for b in 0..(argument_count - 1).div_ceil(2) ... }`. -/
def decode_arg_regs (argc : Nat) (args_slice : List Nat) : Option (List Nat) :=
  if argc > 0 then decode_arg_regs_go argc args_slice 0 ((argc - 1 + 1) / 2)
  else some []

/-- Inner dispatch of the `0x2D..=0x31` (cmp) family. -/
def cmp_ctor (opcode dst a b : Nat) : Option Instruction :=
  if opcode = 0x2D then some (.CmpLessFloat dst a b)
  else if opcode = 0x2E then some (.CmpGreaterFloat dst a b)
  else if opcode = 0x2F then some (.CmpLessDouble dst a b)
  else if opcode = 0x30 then some (.CmpGreaterDouble dst a b)
  else if opcode = 0x31 then some (.CmpLong dst a b)
  else none

/-- Inner dispatch of the `0x32..=0x37` (two-register test) family. -/
def test_ctor (opcode a b : Nat) (off : Int) : Option Instruction :=
  if opcode = 0x32 then some (.TestIfEqual a b off)
  else if opcode = 0x33 then some (.TestIfNotEqual a b off)
  else if opcode = 0x34 then some (.TestIfLessThan a b off)
  else if opcode = 0x35 then some (.TestIfGreaterEqual a b off)
  else if opcode = 0x36 then some (.TestIfGreaterThan a b off)
  else if opcode = 0x37 then some (.TestIfLessEqual a b off)
  else none

/-- Inner dispatch of the `0x38..=0x3D` (test-against-zero) family. -/
def branchz_ctor (opcode reg : Nat) (off : Int) : Option Instruction :=
  if opcode = 0x38 then some (.BranchIfEqualZero reg off)
  else if opcode = 0x39 then some (.BranchIfNotEqualZero reg off)
  else if opcode = 0x3A then some (.BranchIfLessThanZero reg off)
  else if opcode = 0x3B then some (.BranchIfGreaterEqualZero reg off)
  else if opcode = 0x3C then some (.BranchIfGreaterThanZero reg off)
  else if opcode = 0x3D then some (.BranchIfLessEqualZero reg off)
  else none

/-- Inner dispatch of the `0x44..=0x51` (aget/aput) family. -/
def a_ctor (opcode src arr idx : Nat) : Option Instruction :=
  if opcode = 0x44 then some (.AGet src arr idx)
  else if opcode = 0x45 then some (.AGetWide src arr idx)
  else if opcode = 0x46 then some (.AGetObject src arr idx)
  else if opcode = 0x47 then some (.AGetBoolean src arr idx)
  else if opcode = 0x48 then some (.AGetByte src arr idx)
  else if opcode = 0x49 then some (.AGetChar src arr idx)
  else if opcode = 0x4A then some (.AGetShort src arr idx)
  else if opcode = 0x4B then some (.APut src arr idx)
  else if opcode = 0x4C then some (.APutWide src arr idx)
  else if opcode = 0x4D then some (.APutObject src arr idx)
  else if opcode = 0x4E then some (.APutBoolean src arr idx)
  else if opcode = 0x4F then some (.APutByte src arr idx)
  else if opcode = 0x50 then some (.APutChar src arr idx)
  else if opcode = 0x51 then some (.APutShort src arr idx)
  else none

/-- Inner dispatch of the `0x52..=0x5F` (iget/iput) family. -/
def i_ctor (opcode src obj idx : Nat) : Option Instruction :=
  if opcode = 0x52 then some (.IGet src obj idx)
  else if opcode = 0x53 then some (.IGetWide src obj idx)
  else if opcode = 0x54 then some (.IGetObject src obj idx)
  else if opcode = 0x55 then some (.IGetBoolean src obj idx)
  else if opcode = 0x56 then some (.IGetByte src obj idx)
  else if opcode = 0x57 then some (.IGetChar src obj idx)
  else if opcode = 0x58 then some (.IGetShort src obj idx)
  else if opcode = 0x59 then some (.IPut src obj idx)
  else if opcode = 0x5A then some (.IPutWide src obj idx)
  else if opcode = 0x5B then some (.IPutObject src obj idx)
  else if opcode = 0x5C then some (.IPutBoolean src obj idx)
  else if opcode = 0x5D then some (.IPutByte src obj idx)
  else if opcode = 0x5E then some (.IPutChar src obj idx)
  else if opcode = 0x5F then some (.IPutShort src obj idx)
  else none

/-- Inner dispatch of the `0x60..=0x6D` (sget/sput) family. -/
def s_ctor (opcode src idx : Nat) : Option Instruction :=
  if opcode = 0x60 then some (.SGet src idx)
  else if opcode = 0x61 then some (.SGetWide src idx)
  else if opcode = 0x62 then some (.SGetObject src idx)
  else if opcode = 0x63 then some (.SGetBoolean src idx)
  else if opcode = 0x64 then some (.SGetByte src idx)
  else if opcode = 0x65 then some (.SGetChar src idx)
  else if opcode = 0x66 then some (.SGetShort src idx)
  else if opcode = 0x67 then some (.SPut src idx)
  else if opcode = 0x68 then some (.SPutWide src idx)
  else if opcode = 0x69 then some (.SPutObject src idx)
  else if opcode = 0x6A then some (.SPutBoolean src idx)
  else if opcode = 0x6B then some (.SPutByte src idx)
  else if opcode = 0x6C then some (.SPutChar src idx)
  else if opcode = 0x6D then some (.SPutShort src idx)
  else none

/-- Inner dispatch of the `0x6E..=0x72` (invoke) family. -/
def invoke_ctor (opcode argc : Nat) (args : List Nat) (midx : Nat) : Option Instruction :=
  if opcode = 0x6E then some (.InvokeVirtual argc args midx)
  else if opcode = 0x6F then some (.InvokeSuper argc args midx)
  else if opcode = 0x70 then some (.InvokeDirect argc args midx)
  else if opcode = 0x71 then some (.InvokeStatic argc args midx)
  else if opcode = 0x72 then some (.InvokeInterface argc args midx)
  else none

/-- Inner dispatch of the `0x74..=0x78` (invoke/range) family. -/
def invoke_range_ctor (opcode count tidx first : Nat) : Option Instruction :=
  if opcode = 0x74 then some (.InvokeVirtualRange count tidx first)
  else if opcode = 0x75 then some (.InvokeSuperRange count tidx first)
  else if opcode = 0x76 then some (.InvokeDirectRange count tidx first)
  else if opcode = 0x77 then some (.InvokeStaticRange count tidx first)
  else if opcode = 0x78 then some (.InvokeInterfaceRange count tidx first)
  else none

/-- Inner dispatch of the `0x7B..=0x8F` (unary op / conversion) family. -/
def unop_ctor (opcode dst src : Nat) : Option Instruction :=
  if opcode = 0x7B then some (.NegInt dst src)
  else if opcode = 0x7C then some (.NotInt dst src)
  else if opcode = 0x7D then some (.NegLong dst src)
  else if opcode = 0x7E then some (.NotLong dst src)
  else if opcode = 0x7F then some (.NegFloat dst src)
  else if opcode = 0x80 then some (.NegDouble dst src)
  else if opcode = 0x81 then some (.IntToLong dst src)
  else if opcode = 0x82 then some (.IntToFloat dst src)
  else if opcode = 0x83 then some (.IntToDouble dst src)
  else if opcode = 0x84 then some (.LongToInt dst src)
  else if opcode = 0x85 then some (.LongToFloat dst src)
  else if opcode = 0x86 then some (.LongToDouble dst src)
  else if opcode = 0x87 then some (.FloatToInt dst src)
  else if opcode = 0x88 then some (.FloatToLong dst src)
  else if opcode = 0x89 then some (.FloatToDouble dst src)
  else if opcode = 0x8A then some (.DoubleToInt dst src)
  else if opcode = 0x8B then some (.DoubleToLong dst src)
  else if opcode = 0x8C then some (.DoubleToFloat dst src)
  else if opcode = 0x8D then some (.IntToByte dst src)
  else if opcode = 0x8E then some (.IntToChar dst src)
  else if opcode = 0x8F then some (.IntToShort dst src)
  else none

/-- Inner dispatch of the `0x90..=0xAF` (three-register arithmetic) family. -/
def binop_ctor (opcode dst a b : Nat) : Option Instruction :=
  if opcode = 0x90 then some (.AddInt dst a b)
  else if opcode = 0x91 then some (.SubInt dst a b)
  else if opcode = 0x92 then some (.MulInt dst a b)
  else if opcode = 0x93 then some (.DivInt dst a b)
  else if opcode = 0x94 then some (.RemInt dst a b)
  else if opcode = 0x95 then some (.AndInt dst a b)
  else if opcode = 0x96 then some (.OrInt dst a b)
  else if opcode = 0x97 then some (.XorInt dst a b)
  else if opcode = 0x98 then some (.ShLInt dst a b)
  else if opcode = 0x99 then some (.ShRInt dst a b)
  else if opcode = 0x9A then some (.UShRInt dst a b)
  else if opcode = 0x9B then some (.AddLong dst a b)
  else if opcode = 0x9C then some (.SubLong dst a b)
  else if opcode = 0x9D then some (.MulLong dst a b)
  else if opcode = 0x9E then some (.DivLong dst a b)
  else if opcode = 0x9F then some (.RemLong dst a b)
  else if opcode = 0xA0 then some (.AndLong dst a b)
  else if opcode = 0xA1 then some (.OrLong dst a b)
  else if opcode = 0xA2 then some (.XorLong dst a b)
  else if opcode = 0xA3 then some (.ShLLong dst a b)
  else if opcode = 0xA4 then some (.ShRLong dst a b)
  else if opcode = 0xA5 then some (.UShRLong dst a b)
  else if opcode = 0xA6 then some (.AddFloat dst a b)
  else if opcode = 0xA7 then some (.SubFloat dst a b)
  else if opcode = 0xA8 then some (.MulFloat dst a b)
  else if opcode = 0xA9 then some (.DivFloat dst a b)
  else if opcode = 0xAA then some (.RemFloat dst a b)
  else if opcode = 0xAB then some (.AddDouble dst a b)
  else if opcode = 0xAC then some (.SubDouble dst a b)
  else if opcode = 0xAD then some (.MulDouble dst a b)
  else if opcode = 0xAE then some (.DivDouble dst a b)
  else if opcode = 0xAF then some (.RemDouble dst a b)
  else none

/-- Inner dispatch of the `0xB0..=0xCF` (two-address arithmetic) family. -/
def twoaddr_ctor (opcode d2 s2 : Nat) : Option Instruction :=
  if opcode = 0xB0 then some (.AddInt2Addr d2 s2)
  else if opcode = 0xB1 then some (.SubInt2Addr d2 s2)
  else if opcode = 0xB2 then some (.MulInt2Addr d2 s2)
  else if opcode = 0xB3 then some (.DivInt2Addr d2 s2)
  else if opcode = 0xB4 then some (.RemInt2Addr d2 s2)
  else if opcode = 0xB5 then some (.AndInt2Addr d2 s2)
  else if opcode = 0xB6 then some (.OrInt2Addr d2 s2)
  else if opcode = 0xB7 then some (.XorInt2Addr d2 s2)
  else if opcode = 0xB8 then some (.ShlInt2Addr d2 s2)
  else if opcode = 0xB9 then some (.ShrInt2Addr d2 s2)
  else if opcode = 0xBA then some (.UshrInt2Addr d2 s2)
  else if opcode = 0xBB then some (.AddLong2Addr d2 s2)
  else if opcode = 0xBC then some (.SubLong2Addr d2 s2)
  else if opcode = 0xBD then some (.MulLong2Addr d2 s2)
  else if opcode = 0xBE then some (.DivLong2Addr d2 s2)
  else if opcode = 0xBF then some (.RemLong2Addr d2 s2)
  else if opcode = 0xC0 then some (.AndLong2Addr d2 s2)
  else if opcode = 0xC1 then some (.OrLong2Addr d2 s2)
  else if opcode = 0xC2 then some (.XorLong2Addr d2 s2)
  else if opcode = 0xC3 then some (.ShlLong2Addr d2 s2)
  else if opcode = 0xC4 then some (.ShrLong2Addr d2 s2)
  else if opcode = 0xC5 then some (.UshrLong2Addr d2 s2)
  else if opcode = 0xC6 then some (.AddFloat2Addr d2 s2)
  else if opcode = 0xC7 then some (.SubFloat2Addr d2 s2)
  else if opcode = 0xC8 then some (.MulFloat2Addr d2 s2)
  else if opcode = 0xC9 then some (.DivFloat2Addr d2 s2)
  else if opcode = 0xCA then some (.RemFloat2Addr d2 s2)
  else if opcode = 0xCB then some (.AddDouble2Addr d2 s2)
  else if opcode = 0xCC then some (.SubDouble2Addr d2 s2)
  else if opcode = 0xCD then some (.MulDouble2Addr d2 s2)
  else if opcode = 0xCE then some (.DivDouble2Addr d2 s2)
  else if opcode = 0xCF then some (.RemDouble2Addr d2 s2)
  else none

/-- Inner dispatch of the `0xD0..=0xD7` (16-bit literal arithmetic) family. -/
def lit16_ctor (opcode dst src : Nat) (lit : Int) : Option Instruction :=
  if opcode = 0xD0 then some (.AddIntLit16 dst src lit)
  else if opcode = 0xD1 then some (.RSubIntLit16 dst src lit)
  else if opcode = 0xD2 then some (.MulIntLit16 dst src lit)
  else if opcode = 0xD3 then some (.DivIntLit16 dst src lit)
  else if opcode = 0xD4 then some (.RemIntLit16 dst src lit)
  else if opcode = 0xD5 then some (.AndIntLit16 dst src lit)
  else if opcode = 0xD6 then some (.OrIntLit16 dst src lit)
  else if opcode = 0xD7 then some (.XorIntLit16 dst src lit)
  else none

/-- Inner dispatch of the `0xD8..=0xE2` (8-bit literal arithmetic) family. -/
def lit8_ctor (opcode dst src : Nat) (lit : Int) : Option Instruction :=
  if opcode = 0xD8 then some (.AddInt8Lit8 dst src lit)
  else if opcode = 0xD9 then some (.RSubInt8Lit8 dst src lit)
  else if opcode = 0xDA then some (.MulInt8Lit8 dst src lit)
  else if opcode = 0xDB then some (.DivInt8Lit8 dst src lit)
  else if opcode = 0xDC then some (.RemInt8Lit8 dst src lit)
  else if opcode = 0xDD then some (.AndInt8Lit8 dst src lit)
  else if opcode = 0xDE then some (.OrInt8Lit8 dst src lit)
  else if opcode = 0xDF then some (.XorInt8Lit8 dst src lit)
  else if opcode = 0xE0 then some (.ShLInt8Lit8 dst src lit)
  else if opcode = 0xE1 then some (.ShRInt8Lit8 dst src lit)
  else if opcode = 0xE2 then some (.UShRInt8Lit8 dst src lit)
  else none

/-- The `&insns[i .. i + 2]` slice taken before decoding argument registers
(panics when the end of the slice is past the end of the buffer). -/
def args_slice_at (insns : List Nat) (i : Nat) : Option (List Nat) :=
  if i + 2 ≤ insns.length then some ((insns.drop i).take 2) else none

/-- One iteration of the `parse_instructions` loop at cursor `i` (the loop
has already checked `i < insns.len()` and `i + 1 < insns.len()`): the
optionally-emitted instruction and the next cursor.  `none` is a panic. -/
def decode_step (insns : List Nat) (i : Nat) : Option (Option Instruction × Nat) :=
  match insns[i]? with
  | none => none
  | some opcode =>
    if opcode = 0x00 then some (some .Nop, i + 1)
    else if opcode = 0x01 then
      (insns[i + 1]?).map (fun b => (some (.Move (b >>> 4) (get_lower_bits b 4)), i + 2))
    else if opcode = 0x02 then
      match insns[i + 1]?, parse_u16 insns (i + 2) with
      | some dst, some src => some (some (.MoveFrom16 dst src), i + 4)
      | _, _ => none
    else if opcode = 0x03 then
      match parse_u16 insns (i + 1), parse_u16 insns (i + 2) with
      | some dst, some src => some (some (.Move16 dst src), i + 3)
      | _, _ => none
    else if opcode = 0x04 then
      (insns[i + 1]?).map (fun b => (some (.MoveWide (b >>> 4) (get_lower_bits b 4)), i + 2))
    else if opcode = 0x05 then
      match insns[i + 1]?, parse_u16 insns (i + 2) with
      | some dst, some src => some (some (.MoveWideFrom16 dst src), i + 4)
      | _, _ => none
    else if opcode = 0x06 then
      match parse_u16 insns (i + 1), parse_u16 insns (i + 3) with
      | some dst, some src => some (some (.MoveWide16 dst src), i + 5)
      | _, _ => none
    else if opcode = 0x07 then
      (insns[i + 1]?).map (fun b => (some (.MoveObject (get_lower_bits b 4) (b >>> 4)), i + 2))
    else if opcode = 0x08 then
      match insns[i + 1]?, parse_u16 insns (i + 2) with
      | some dst, some src => some (some (.MoveObjectFrom16 dst src), i + 4)
      | _, _ => none
    else if opcode = 0x09 then
      match parse_u16 insns (i + 1), parse_u16 insns (i + 2) with
      | some dst, some src => some (some (.MoveObject16 dst src), i + 3)
      | _, _ => none
    else if opcode = 0x0A then
      (insns[i + 1]?).map (fun d => (some (.MoveResult d), i + 2))
    else if opcode = 0x0B then
      (insns[i + 1]?).map (fun d => (some (.MoveResultWide d), i + 2))
    else if opcode = 0x0C then
      (insns[i + 1]?).map (fun d => (some (.MoveResultObject d), i + 2))
    else if opcode = 0x0D then
      (insns[i + 1]?).map (fun d => (some (.MoveException d), i + 2))
    else if opcode = 0x0E then some (some .ReturnVoid, i + 2)
    else if opcode = 0x0F then
      (insns[i + 1]?).map (fun r => (some (.Return r), i + 2))
    else if opcode = 0x10 then
      (insns[i + 1]?).map (fun r => (some (.ReturnWide r), i + 2))
    else if opcode = 0x11 then
      (insns[i + 1]?).map (fun r => (some (.ReturnObject r), i + 2))
    else if opcode = 0x12 then
      (insns[i + 1]?).map (fun b =>
        (some (.Const4Bit (get_lower_bits b 4) (toI8 (b >>> 4))), i + 2))
    else if opcode = 0x13 then
      match insns[i + 1]?, parse_i16 insns (i + 2) with
      | some dst, some lit => some (some (.Const16Bit dst lit), i + 4)
      | _, _ => none
    else if opcode = 0x14 then
      match insns[i + 1]?, parse_u32 insns (i + 2) with
      | some dst, some lit => some (some (.Const32Bit dst lit), i + 6)
      | _, _ => none
    else if opcode = 0x15 then
      match insns[i + 1]?, parse_i16 insns (i + 2) with
      | some dst, some lit => some (some (.ConstHigh16 dst lit), i + 4)
      | _, _ => none
    else if opcode = 0x16 then
      match insns[i + 1]?, parse_i16 insns (i + 2) with
      | some dst, some lit => some (some (.ConstWide16Bit dst lit), i + 4)
      | _, _ => none
    else if opcode = 0x17 then
      match insns[i + 1]?, parse_i32 insns (i + 2) with
      | some dst, some lit => some (some (.ConstWide32 dst lit), i + 6)
      | _, _ => none
    else if opcode = 0x18 then
      match insns[i + 1]?, parse_u64 insns (i + 2) with
      | some dst, some lit => some (some (.ConstWide64Bit dst lit), i + 10)
      | _, _ => none
    else if opcode = 0x19 then
      match insns[i + 1]?, parse_i16 insns (i + 2) with
      | some dst, some lit => some (some (.ConstWide16BitHigh dst lit), i + 4)
      | _, _ => none
    else if opcode = 0x1A then
      match insns[i + 1]?, parse_u16 insns (i + 2) with
      | some dst, some sidx => some (some (.ConstString dst sidx), i + 4)
      | _, _ => none
    else if opcode = 0x1B then
      match insns[i + 1]?, parse_u32 insns (i + 2) with
      | some dst, some sidx => some (some (.ConstStringJumbo dst sidx), i + 6)
      | _, _ => none
    else if opcode = 0x1C then
      match insns[i + 1]?, parse_u16 insns (i + 2) with
      | some dst, some tidx => some (some (.ConstClass dst tidx), i + 4)
      | _, _ => none
    else if opcode = 0x1D then
      (insns[i + 1]?).map (fun r => (some (.MonitorEnter r), i + 2))
    else if opcode = 0x1E then
      (insns[i + 1]?).map (fun r => (some (.MonitorExit r), i + 2))
    else if opcode = 0x1F then
      match insns[i + 1]?, parse_u16 insns (i + 2) with
      | some r, some tidx => some (some (.CheckCast r tidx), i + 4)
      | _, _ => none
    else if opcode = 0x20 then
      match insns[i + 1]?, parse_u16 insns (i + 2) with
      | some b, some tidx =>
          some (some (.InstanceOf (b >>> 4) (get_lower_bits b 4) tidx), i + 4)
      | _, _ => none
    else if opcode = 0x21 then
      (insns[i + 1]?).map (fun b =>
        (some (.ArrayLength (b >>> 4) (get_lower_bits b 4)), i + 2))
    else if opcode = 0x22 then
      match insns[i + 1]?, parse_u16 insns (i + 2) with
      | some dst, some tidx => some (some (.NewInstance dst tidx), i + 4)
      | _, _ => none
    else if opcode = 0x23 then
      match insns[i + 1]?, parse_u16 insns (i + 2) with
      | some b, some tidx =>
          some (some (.NewArray (b >>> 4) (get_lower_bits b 4) tidx), i + 4)
      | _, _ => none
    else if opcode = 0x24 then
      match insns[i + 1]?, parse_u16 insns (i + 2), args_slice_at insns (i + 4) with
      | some b, some tidx, some slice =>
          (decode_arg_regs (b >>> 4) slice).map (fun regs =>
            (some (.FilledNewArray (b >>> 4) regs tidx), i + 6))
      | _, _, _ => none
    else if opcode = 0x25 then
      match insns[i + 1]?, parse_u16 insns (i + 2), parse_u16 insns (i + 4) with
      | some count, some tidx, some first => some (some (.FilledNewArrayRange count tidx first), i + 6)
      | _, _, _ => none
    else if opcode = 0x26 then
      match insns[i + 1]?, parse_i32 insns (i + 2) with
      | some arr, some off => some (some (.FilledArrayData arr off), i + 3)
      | _, _ => none
    else if opcode = 0x27 then
      (insns[i + 1]?).map (fun r => (some (.Throw r), i + 2))
    else if opcode = 0x28 then
      (insns[i + 1]?).map (fun b => (some (.Goto (toI8 b)), i + 2))
    else if opcode = 0x29 then
      (parse_i16 insns (i + 1)).map (fun off => (some (.Goto16 off), i + 3))
    else if opcode = 0x2A then some (none, i + 1)
    else if opcode = 0x2B then
      match insns[i + 1]?, parse_i32 insns (i + 2) with
      | some r, some off => some (some (.PackedSwitch r off), i + 6)
      | _, _ => none
    else if opcode = 0x2C then
      match insns[i + 1]?, parse_i32 insns (i + 2) with
      | some r, some off => some (some (.SparseSwitch r off), i + 6)
      | _, _ => none
    else if 0x2D ≤ opcode ∧ opcode ≤ 0x31 then
      match insns[i + 1]?, insns[i + 2]?, insns[i + 3]? with
      | some dst, some a, some b =>
          (cmp_ctor opcode dst a b).map (fun ins => (some ins, i + 4))
      | _, _, _ => none
    else if 0x32 ≤ opcode ∧ opcode ≤ 0x37 then
      match insns[i + 1]?, parse_i16 insns (i + 2) with
      | some b, some off =>
          (test_ctor opcode (b >>> 4) (get_lower_bits b 4) off).map (fun ins => (some ins, i + 4))
      | _, _ => none
    else if 0x38 ≤ opcode ∧ opcode ≤ 0x3D then
      match insns[i + 1]?, parse_i16 insns (i + 2) with
      | some r, some off =>
          (branchz_ctor opcode r off).map (fun ins => (some ins, i + 4))
      | _, _ => none
    else if 0x3E ≤ opcode ∧ opcode ≤ 0x43 then some (none, i + 1)
    else if 0x44 ≤ opcode ∧ opcode ≤ 0x51 then
      match insns[i + 1]?, insns[i + 2]?, insns[i + 3]? with
      | some src, some arr, some idx =>
          (a_ctor opcode src arr idx).map (fun ins => (some ins, i + 4))
      | _, _, _ => none
    else if 0x52 ≤ opcode ∧ opcode ≤ 0x5F then
      match insns[i + 1]?, parse_u16 insns (i + 2) with
      | some b, some ridx =>
          (i_ctor opcode (get_lower_bits b 4) (b >>> 4) ridx).map (fun ins => (some ins, i + 4))
      | _, _ => none
    else if 0x60 ≤ opcode ∧ opcode ≤ 0x6D then
      match insns[i + 1]?, parse_u16 insns (i + 2) with
      | some src, some sidx =>
          (s_ctor opcode src sidx).map (fun ins => (some ins, i + 4))
      | _, _ => none
    else if 0x6E ≤ opcode ∧ opcode ≤ 0x72 then
      match insns[i + 1]?, parse_u16 insns (i + 2), args_slice_at insns (i + 4) with
      | some b, some midx, some slice =>
          match decode_arg_regs (b >>> 4) slice with
          | none => none
          | some regs => (invoke_ctor opcode (b >>> 4) regs midx).map (fun ins => (some ins, i + 6))
      | _, _, _ => none
    else if opcode = 0x73 then some (none, i + 1)
    else if 0x74 ≤ opcode ∧ opcode ≤ 0x78 then
      match insns[i + 1]?, parse_u16 insns (i + 2), parse_u16 insns (i + 4) with
      | some count, some tidx, some first =>
          (invoke_range_ctor opcode count tidx first).map (fun ins => (some ins, i + 6))
      | _, _, _ => none
    else if 0x79 ≤ opcode ∧ opcode ≤ 0x7A then some (none, i + 1)
    else if 0x7B ≤ opcode ∧ opcode ≤ 0x8F then
      match insns[i + 1]? with
      | some b =>
          (unop_ctor opcode (b >>> 4) (get_lower_bits b 4)).map (fun ins => (some ins, i + 2))
      | none => none
    else if 0x90 ≤ opcode ∧ opcode ≤ 0xAF then
      match insns[i + 1]?, insns[i + 2]?, insns[i + 3]? with
      | some dst, some a, some b =>
          (binop_ctor opcode dst a b).map (fun ins => (some ins, i + 4))
      | _, _, _ => none
    else if 0xB0 ≤ opcode ∧ opcode ≤ 0xCF then
      match insns[i + 1]? with
      | some b =>
          (twoaddr_ctor opcode (b >>> 4) (get_lower_bits b 4)).map (fun ins => (some ins, i + 2))
      | none => none
    else if 0xD0 ≤ opcode ∧ opcode ≤ 0xD7 then
      match insns[i + 1]?, parse_i16 insns (i + 2) with
      | some b, some lit =>
          (lit16_ctor opcode (b >>> 4) (get_lower_bits b 4) lit).map (fun ins => (some ins, i + 4))
      | _, _ => none
    else if 0xD8 ≤ opcode ∧ opcode ≤ 0xE2 then
      match insns[i + 1]?, insns[i + 2]?, insns[i + 3]? with
      | some dst, some src, some litb =>
          (lit8_ctor opcode dst src (toI8 litb)).map (fun ins => (some ins, i + 4))
      | _, _, _ => none
    else if 0xE3 ≤ opcode ∧ opcode ≤ 0xF9 then some (none, i + 1)
    else if opcode = 0xFA then some (none, i + 1)
    else if opcode = 0xFB then some (none, i + 1)
    else if opcode = 0xFC then some (none, i + 1)
    else if opcode = 0xFD then
      match insns[i + 1]?, parse_u16 insns (i + 2), parse_u16 insns (i + 4) with
      | some count, some ref, some first =>
          some (some (.InvokeCustomRange count ref first), i + 6)
      | _, _, _ => none
    else if opcode = 0xFE then
      match insns[i + 1]?, parse_u16 insns (i + 2) with
      | some dst, some idx => some (some (.ConstMethodHandle dst idx), i + 4)
      | _, _ => none
    else if opcode = 0xFF then
      match insns[i + 1]?, parse_u16 insns (i + 2) with
      | some dst, some idx => some (some (.ConstMethodType dst idx), i + 4)
      | _, _ => none
    else none

/-- The `parse_instructions` loop: while `i < insns.len()`, break when
`i + 1 >= insns.len()`, otherwise take one decode step.  `fuel` bounds the
iteration count; every step advances the cursor by at least one, so
`insns.length + 1` units always suffice. -/
def parse_instructions_go (insns : List Nat) : Nat → Nat → Option (List Instruction)
  | _, 0 => none
  | i, fuel + 1 =>
      if insns.length ≤ i then some []
      else if insns.length ≤ i + 1 then some []
      else
        match decode_step insns i with
        | none => none
        | some (emitted, i2) =>
            match parse_instructions_go insns i2 fuel with
            | none => none
            | some rest =>
                some (match emitted with
                      | some ins => ins :: rest
                      | none => rest)

/-- Model of `class::parse_instructions` (`none` models a decoder panic). -/
def parse_instructions (insns : List Nat) : Option (List Instruction) :=
  parse_instructions_go insns 0 (insns.length + 1)

/-! ## `interpreter/interpreter.rs`

The interpreter state flattens the `Interpreter` struct together with the
parser fields it reads (`parser.data`, `parser.container`, `parser.strings`,
`parser.classes`).  The frame stack is a list whose head is the top of the
Rust `Vec` (`frames.last()`).  External collaborators — the on-disk class
store read by `class_file_to_class`, and the JNI host reached through
`has_method` / `call_method` / native-method slots — are supplied by an
environment of functions. -/

structure InterpState where
  data : List Nat
  container : Option DexContainer
  strings : List (List Nat)
  classes : List DexClass
  heap : List (Nat × Object)
  object_refs : List Nat
  frames : List Frame
  main_idx : Nat
  next_object_id : Nat

/-- The interpreter's external collaborators.  `classStore` models
`utils::class_file_to_class`, which either returns a class or panics
(missing file, malformed JSON, descriptor without `;`): `none` is the panic.
`hasMethod`/`callMethod` model the JNI probes on a registered host receiver,
and `runNative` interprets the opaque native-method handles stored in
`Object.methods`. -/
structure Env where
  classStore : List Nat → Option DexClass
  hasMethod : Nat → List Nat → Bool
  callMethod : Nat → List Nat → List Nat → DexValue
  runNative : Nat → Object → List DexValue → DexValue × Object

/-- Model of `frame.registers[i] = v`: panics (`none`) when `i` is out of range. -/
def set_reg (regs : List DexValue) (i : Nat) (v : DexValue) : Option (List DexValue) :=
  if i < regs.length then some (regs.set i v) else none

/-- Model of `HashMap::insert` on an association list. -/
def al_insert {κ α : Type} [DecidableEq κ] : List (κ × α) → κ → α → List (κ × α)
  | [], k, v => [(k, v)]
  | (k2, v2) :: rest, k, v =>
      if k2 = k then (k, v) :: rest else (k2, v2) :: al_insert rest k v

/-- Model of `self.heap.get(&id)`. -/
def heap_get (heap : List (Nat × Object)) (id : Nat) : Option Object :=
  heap.lookup id

/-- Replace the top frame (the Rust code mutates it through `last_mut`). -/
def set_top_frame (st : InterpState) (rest : List Frame) (f : Frame) : InterpState :=
  { st with frames := f :: rest }

/-- The key `format!("field@{}", instance_field_idx)`. -/
def field_key (idx : Nat) : List Nat :=
  ascii ("field@" ++ Nat.repr idx)

/-- The argument-copy loop of `push_frame_with_class`:
`for i in 2..method_regs { registers[i] = args[i - 2] }`, entered with
`i = 2` and `count = method_regs - 2` iterations remaining.  Reading past the
end of `args` is a panic (`none`). -/
def copy_args (args : List DexValue) : List DexValue → Nat → Nat → Option (List DexValue)
  | regs, _, 0 => some regs
  | regs, i, count + 1 =>
      match args[i - 2]? with
      | none => none
      | some v => copy_args args (regs.set i v) (i + 1) count

/-- Model of `Interpreter::push_frame_with_class`.  Allocates `method.registers`
null-initialised registers, copies the arguments into the window starting at
register 2 when `args` is non-empty, and pushes the frame.  `none` is a
panic (`expect("method not found")`, or an out-of-range argument read). -/
def push_frame_with_class (cls : DexClass) (class_idx : Nat) (method_name : List Nat)
    (args : List DexValue) (st : InterpState) : Option InterpState :=
  match cls.methods.lookup method_name with
  | none => none
  | some m =>
      let method_regs := m.registers
      let registers0 := List.replicate method_regs DexValue.Null
      match (if args.length > 0 then copy_args args registers0 2 (method_regs - 2)
             else some registers0) with
      | none => none
      | some registers =>
          some { st with
                 frames := ⟨registers, none, class_idx, method_name, 0⟩ :: st.frames }

/-- The shared prologue of the five invoke arms of `Interpreter::execute`:
`container.unwrap()`, `method_id_to_string_offset(..).unwrap()` on the
method-id table, the method-name string decode and the
`get_name_of_class` resolution.  `none` = panic; `some none` = the
`if let Some(method_name_idx)` guard failed (skip);
`some (some (method_name, class_name, class_idx))` otherwise. -/
def invoke_prologue (st : InterpState) (method_idx : Nat) :
    Option (Option (List Nat × List Nat × Nat)) :=
  match st.container with
  | none => none
  | some c =>
      match c.method_id_items[method_idx]? with
      | none => none
      | some mitem =>
          match c.string_offset mitem.name_idx with
          | none => some none
          | some offs =>
              match parse_string_at_offset st.data offs c.header_item 0 with
              | none => none
              | some (_, method_name) =>
                  match get_name_of_class mitem.class_idx st.data c.header_item
                          c.type_id_items c.string_id_items with
                  | none => none
                  | some class_name => some (some (method_name, class_name, mitem.class_idx))

/-- The field walk of the `InvokeInterface` arm: iterate over (a snapshot of)
the fields of heap object 1; for each field holding an object whose method
table has the assembled signature, probe the registered host receivers and
then any inline native slot, updating the local object clone and the
pending-result slot.  `none` = panic (dangling heap id). -/
def interface_loop (env : Env) (st : InterpState) (method_name : List Nat) :
    List (List Nat × DexValue) → Object → Option DexValue →
    Option (Object × Option DexValue)
  | [], ob, temp => some (ob, temp)
  | (_, field) :: fieldsRest, ob, temp =>
      match field with
      | .Object id =>
          match heap_get st.heap id with
          | none => none
          | some target =>
              let sig := method_name ++ ascii ":()Ljava/lang/String;"
              match target.methods.lookup sig with
              | none => interface_loop env st method_name fieldsRest ob temp
              | some mslot =>
                  let sig2 := method_name ++ ascii "()Ljava/lang/String;"
                  let temp1 := st.object_refs.foldl
                    (fun t ref =>
                      if env.hasMethod ref sig2 then
                        some (env.callMethod ref method_name (ascii "()Ljava/lang/String;"))
                      else t) temp
                  match mslot with
                  | some nm =>
                      let p := env.runNative nm ob []
                      interface_loop env st method_name fieldsRest p.2 (some p.1)
                  | none => interface_loop env st method_name fieldsRest ob temp1
      | _ => interface_loop env st method_name fieldsRest ob temp

/-- Outcome of the interpreter: a Rust panic, exhausted fuel (the model's
bound on loop iterations and call depth; the Rust loop can run forever), or
normal completion with the optional produced value and the final state. -/
inductive RRes where
  | panic
  | fuelOut
  | done (ret : Option DexValue) (st : InterpState)

/-- A pending interpreter activity: an iteration of the `run_with_class`
loop, or the execution of one instruction (`Interpreter::execute`). -/
inductive Req where
  | run (cls : DexClass) (class_idx : Nat) (st : InterpState)
  | exec (instr : Instruction) (class_idx : Nat) (st : InterpState)

/-- The interpreter: `run_with_class` (the `.run` requests) and `execute`
(the `.exec` requests), fuelled.  Each loop iteration and each nested
`execute` / `run_with_class` call consumes one unit of fuel. -/
def interp (env : Env) : Nat → Req → RRes
  | 0, _ => .fuelOut
  | fuel + 1, .run cls class_idx st =>
      match st.frames with
      | [] => .done none st
      | frame :: rest =>
          match cls.methods.lookup frame.method_name with
          | none =>
              -- `if let Some(method)` fails: the `while` loop spins unchanged
              interp env fuel (.run cls class_idx st)
          | some m =>
              -- invocation prelude: on first entry plant the Object(1) receiver
              match (if frame.pc = 0 then
                       (if frame.registers.length < 2 then
                          set_reg frame.registers 0 (.Object 1)
                        else set_reg frame.registers 1 (.Object 1))
                     else some frame.registers) with
              | none => .panic
              | some regs1 =>
                  let frame1 : Frame := { frame with registers := regs1 }
                  if m.instructions.length ≤ frame1.pc then
                    interp env fuel (.run cls class_idx { st with frames := rest })
                  else
                    match m.instructions[frame1.pc]? with
                    | none => .panic
                    | some instr =>
                        let frame2 : Frame := { frame1 with pc := frame1.pc + 1 }
                        let st2 := set_top_frame st rest frame2
                        match interp env fuel (.exec instr class_idx st2) with
                        | .panic => .panic
                        | .fuelOut => .fuelOut
                        | .done (some v) st3 =>
                            .done (some v) { st3 with frames := st3.frames.tail }
                        | .done none st3 => interp env fuel (.run cls class_idx st3)
  | fuel + 1, .exec instr class_idx st =>
      match st.frames with
      | [] => .panic
      | frame :: rest =>
          match instr with
          | .ConstString dest string_idx =>
              match st.strings[string_idx]? with
              | none => .panic
              | some s =>
                  match set_reg frame.registers dest (.String s) with
                  | none => .panic
                  | some regs => .done none (set_top_frame st rest { frame with registers := regs })
          | .Const4Bit dst signed_int =>
              match set_reg frame.registers dst (.Int signed_int) with
              | none => .panic
              | some regs => .done none (set_top_frame st rest { frame with registers := regs })
          | .MoveObject dst src =>
              match frame.registers[src]? with
              | none => .panic
              | some v =>
                  match set_reg frame.registers dst v with
                  | none => .panic
                  | some regs => .done none (set_top_frame st rest { frame with registers := regs })
          | .MoveResultObject dst =>
              match frame.temp with
              | some t =>
                  match set_reg frame.registers dst t with
                  | none => .panic
                  | some regs =>
                      .done none (set_top_frame st rest { frame with registers := regs, temp := none })
              | none => .done none st
          | .MoveResult dst =>
              match frame.temp with
              | some t =>
                  match set_reg frame.registers dst t with
                  | none => .panic
                  | some regs =>
                      .done none (set_top_frame st rest { frame with registers := regs, temp := none })
              | none => .done none st
          | .InvokeStatic _argc args method_idx =>
              match args with
              | a0 :: a1 :: _ =>
                  match frame.registers[a0]?, frame.registers[a1]? with
                  | some first, some second =>
                      match invoke_prologue st method_idx with
                      | none => .panic
                      | some none => .done none st
                      | some (some (method_name, _class_name, _cidx)) =>
                          if method_name = ascii "areEqual" then
                            if args.length = 2 then
                              if dexEq first second then
                                .done none (set_top_frame st rest
                                  { frame with temp := some (.Boolean (dexEq first second)) })
                              else .panic
                            else .panic
                          else if method_name = ascii "checkNotNullParameter" then
                            if dexEq second .Null then .panic else .done none st
                          else .done none st
                  | _, _ => .panic
              | _ => .done none st
          | .InvokeSuper _argc _args method_idx =>
              match invoke_prologue st method_idx with
              | none => .panic
              | some none => .done none st
              | some (some _) => .done none st
          | .InvokeInterface _argc _args method_idx =>
              match invoke_prologue st method_idx with
              | none => .panic
              | some none => .done none st
              | some (some (method_name, _cn, _)) =>
                  match heap_get st.heap 1 with
                  | none => .panic
                  | some object =>
                      match interface_loop env st method_name object.fields object frame.temp with
                      | none => .panic
                      | some (_obFinal, tempF) =>
                          .done none (set_top_frame st rest { frame with temp := tempF })
          | .InvokeDirect _argc args method_idx =>
              match invoke_prologue st method_idx with
              | none => .panic
              | some none => .done none st
              | some (some (method_name, class_name, cidx)) =>
                  if contains_sub class_name (ascii "Ljava/lang/") then .done none st
                  else
                    match env.classStore class_name with
                    | none => .panic
                    | some loaded =>
                        match args.mapM (fun a => frame.registers[a]?) with
                        | none => .panic
                        | some call_args =>
                            match push_frame_with_class loaded cidx method_name call_args st with
                            | none => .panic
                            | some st1 =>
                                match interp env fuel (.run loaded cidx st1) with
                                | .panic => .panic
                                | .fuelOut => .fuelOut
                                | .done _ st2 => .done none st2
          | .InvokeVirtual _argc args method_idx =>
              match invoke_prologue st method_idx with
              | none => .panic
              | some none => .done none st
              | some (some (method_name, class_name, cidx)) =>
                  match st.classes[class_idx]? with
                  | none => .panic
                  | some cur =>
                      -- the source looks the *class name* up in the method map
                      match cur.methods.lookup class_name with
                      | some _ => .done none st
                      | none =>
                          match cur.super_class with
                          | none => .panic
                          | some super1 =>
                              match env.classStore super1 with
                              | none => .panic
                              | some loaded =>
                                  match args.mapM (fun a => frame.registers[a]?) with
                                  | none => .panic
                                  | some call_args =>
                                      match push_frame_with_class loaded cidx method_name
                                              call_args st with
                                      | none => .panic
                                      | some st1 =>
                                          match interp env fuel (.run loaded cidx st1) with
                                          | .panic => .panic
                                          | .fuelOut => .fuelOut
                                          | .done _ st2 => .done none st2
          | .IPutObject src obj instance_field_idx =>
              match frame.registers[obj]? with
              | none => .panic
              | some (.Object obj_id) =>
                  match heap_get st.heap obj_id with
                  | some object =>
                      match frame.registers[src]? with
                      | none => .panic
                      | some value =>
                          let fields2 := al_insert object.fields (field_key instance_field_idx) value
                          let object2 := { object with fields := fields2 }
                          .done none { st with heap := al_insert st.heap obj_id object2 }
                  | none => .done none st
              | some _ => .done none st
          | .IPutBoolean src obj instance_field_idx =>
              match frame.registers[obj]? with
              | none => .panic
              | some (.Object obj_id) =>
                  match heap_get st.heap obj_id with
                  | some object =>
                      match frame.registers[src]? with
                      | none => .panic
                      | some value =>
                          match value.to_boolean with
                          | none => .panic
                          | some bv =>
                              let fields2 := al_insert object.fields (field_key instance_field_idx) bv
                              let object2 := { object with fields := fields2 }
                              .done none { st with heap := al_insert st.heap obj_id object2 }
                  | none => .done none st
              | some _ => .done none st
          | .IGetObject src obj instance_field_idx =>
              match frame.registers[obj]? with
              | none => .panic
              | some (.Object obj_id) =>
                  match heap_get st.heap obj_id with
                  | some object =>
                      match object.fields.lookup (field_key instance_field_idx) with
                      | none => .panic
                      | some v =>
                          match set_reg frame.registers src v with
                          | none => .panic
                          | some regs =>
                              .done none (set_top_frame st rest { frame with registers := regs })
                  | none => .done none st
              | some _ => .done none st
          | .IGetBoolean src obj instance_field_idx =>
              match frame.registers[obj]? with
              | none => .panic
              | some (.Object obj_id) =>
                  match heap_get st.heap obj_id with
                  | some object =>
                      match object.fields.lookup (field_key instance_field_idx) with
                      | none => .panic
                      | some v =>
                          match set_reg frame.registers src v with
                          | none => .panic
                          | some regs =>
                              .done none (set_top_frame st rest { frame with registers := regs })
                  | none => .done none st
              | some _ => .done none st
          | .NewInstance dst type_idx =>
              match st.container with
              | none => .panic
              | some c =>
                  let string_idx := (c.type_to_string_id type_idx).getD 0
                  match st.strings[string_idx]? with
                  | none => .done none st
                  | some type_name =>
                      let id := st.next_object_id
                      let st1 := { st with
                                   heap := al_insert st.heap id ⟨type_name, [], []⟩,
                                   next_object_id := id + 1 }
                      match set_reg frame.registers dst (.Object id) with
                      | none => .panic
                      | some regs =>
                          .done none { st1 with frames := { frame with registers := regs } :: rest }
          | .CheckCast _ref_bearing_reg _type_idx =>
              match st.container with
              | none => .panic
              | some _ => .done none st
          | .ReturnVoid => .done (some .Void) st
          | .ReturnObject src =>
              match frame.registers[src]? with
              | none => .panic
              | some v => .done (some v) st
          | .Return reg =>
              match frame.registers[reg]? with
              | none => .panic
              | some v => .done (some v) st
          | _ => .done none st

/-- Model of `Interpreter::run_with_class` (fuelled). -/
def run_with_class (env : Env) (fuel : Nat) (cls : DexClass) (class_idx : Nat)
    (st : InterpState) : RRes :=
  interp env fuel (.run cls class_idx st)

/-- Model of `Interpreter::execute` (fuelled). -/
def execute (env : Env) (fuel : Nat) (instr : Instruction) (class_idx : Nat)
    (st : InterpState) : RRes :=
  interp env fuel (.exec instr class_idx st)

/-! ## Concrete fixtures used by the theorems below -/

/-- An inert host environment: the class store has no classes (so a load
would panic, like a missing file), and no host receiver answers. -/
def env0 : Env where
  classStore := fun _ => none
  hasMethod := fun _ _ => false
  callMethod := fun _ _ _ => .Null
  runNative := fun _ ob _ => (.Null, ob)

/-- A freshly initialised interpreter state with no parser data. -/
def emptyState : InterpState where
  data := []
  container := none
  strings := []
  classes := []
  heap := []
  object_refs := []
  frames := []
  main_idx := 0
  next_object_id := 0

/-- The method decoded from scenario S4's bytes `12 F0 0F 00`, one register. -/
def s4_method : DexMethod where
  name := ascii "run"
  return_type := ascii "I"
  parameters := []
  registers := 1
  instructions := [.Const4Bit 0 15, .Return 0]

/-- A class holding `s4_method`. -/
def s4_class : DexClass where
  name := ascii "LMain;"
  super_class := none
  static_fields := []
  instance_fields := []
  methods := [(ascii "run", s4_method)]

/-- The frame for `s4_method` as pushed with no arguments: one null register. -/
def s4_frame : Frame where
  registers := [.Null]
  temp := none
  class_idx := 0
  method_name := ascii "run"
  pc := 0

/-- The interpreter state about to run scenario S4. -/
def s4_state : InterpState := { emptyState with frames := [s4_frame] }

/-- A callee method consisting of a single `return v0`. -/
def c2_callee_m : DexMethod where
  name := ascii "callee"
  return_type := ascii "I"
  parameters := []
  registers := 1
  instructions := [.Return 0]

/-- A class holding `c2_callee_m`. -/
def c2_class : DexClass where
  name := ascii "LC;"
  super_class := none
  static_fields := []
  instance_fields := []
  methods := [(ascii "callee", c2_callee_m)]

/-- A caller frame sitting below the returning callee, with an empty
pending-result slot. -/
def c2_caller_frame : Frame where
  registers := [.Null, .Null, .Null]
  temp := none
  class_idx := 0
  method_name := ascii "caller"
  pc := 0

/-- The callee frame about to execute its `return`. -/
def c2_callee_frame : Frame where
  registers := [.Null]
  temp := none
  class_idx := 0
  method_name := ascii "callee"
  pc := 0

/-- Callee on top of caller. -/
def c2_state : InterpState := { emptyState with frames := [c2_callee_frame, c2_caller_frame] }

/-- A method whose `return v0` sits at pc 1 (used to instantiate the general
return-step theorem away from the pc-0 prelude). -/
def w2_method : DexMethod where
  name := ascii "m2"
  return_type := ascii "I"
  parameters := []
  registers := 1
  instructions := [.Nop, .Return 0]

/-- A class holding `w2_method`. -/
def w2_class : DexClass where
  name := ascii "LW;"
  super_class := none
  static_fields := []
  instance_fields := []
  methods := [(ascii "m2", w2_method)]

/-- A frame of `w2_method` at pc 1 with `v0 = Int 7`. -/
def w2_frame : Frame where
  registers := [.Int 7]
  temp := none
  class_idx := 0
  method_name := ascii "m2"
  pc := 1

/-- Model of `w2_frame` on top of `c2_caller_frame`. -/
def w2_state : InterpState := { emptyState with frames := [w2_frame, c2_caller_frame] }

/-- A four-register method with no body, for exercising the frame push. -/
def c4_method : DexMethod where
  name := ascii "m4"
  return_type := ascii "V"
  parameters := []
  registers := 4
  instructions := []

/-- A class holding `c4_method`. -/
def c4_class : DexClass where
  name := ascii "LC4;"
  super_class := none
  static_fields := []
  instance_fields := []
  methods := [(ascii "m4", c4_method)]

/-- A container with one method-id entry whose `name_idx` points past the end
of the (empty) string-id table. -/
def c5_container : DexContainer :=
  ⟨{ magic := [] }, [], [], [], [], [⟨0, 0, 0⟩], []⟩

/-- Model of `s4_state` equipped with `c5_container`. -/
def c5_state : InterpState := { s4_state with container := some c5_container }

/-- Data section for the invoke-direct scenario: string 0 is `callee`
(ULEB length 6 at offset 0, NUL-terminated) and string 1 is `LC;` (ULEB
length 3 at offset 8, NUL-terminated). -/
def d2_data : List Nat :=
  [6, 0x63, 0x61, 0x6C, 0x6C, 0x65, 0x65, 0, 3, 0x4C, 0x43, 0x3B, 0]

/-- Container for the invoke-direct scenario: method-id 0 names string 0
(`callee`) on class type 0, and type 0 resolves through string 1 to `LC;`. -/
def d2_container : DexContainer :=
  ⟨{ magic := [] }, [0, 8], [1], [], [], [⟨0, 0, 0⟩], []⟩

/-- A host environment whose class store loads `c2_class` for any name. -/
def d2_env : Env := { env0 with classStore := fun _ => some c2_class }

/-- The caller's state about to execute `invoke-direct {} method@0`: one
caller frame with an empty pending-result slot, over `d2_container`. -/
def d2_state : InterpState :=
  { emptyState with
    data := d2_data
    container := some d2_container
    frames := [c2_caller_frame] }

/-- Model of `d2_state` after the callee frame push. -/
def d2_st1 : InterpState :=
  { d2_state with frames := [⟨[.Null], none, 0, ascii "callee", 0⟩, c2_caller_frame] }

/-! ## Helper lemmas -/

/-- Wrapping subtraction agrees with truncated subtraction in range. -/
theorem wrapping_sub_eq_sub {a b : Nat} (hba : b ≤ a) (hb : b < USIZE_WRAP)
    (hr : a - b < USIZE_WRAP) : wrapping_sub a b = a - b := by
  unfold wrapping_sub
  rw [Nat.mod_eq_of_lt hb]
  have h1 : a + (USIZE_WRAP - b) = (a - b) + USIZE_WRAP := by omega
  rw [h1, Nat.add_mod_right, Nat.mod_eq_of_lt hr]

/-- Value of one byte of the padded slice of `parse_u32` when every
admitted position is in bounds. -/
theorem u32_slice_byte_eq (d : List Nat) (p a i : Nat) (hin : p + i ≤ a → p + i < d.length) :
    u32_slice_byte d p a i = some (if p + i ≤ a then (d[p + i]?).getD 0 else 0) := by
  unfold u32_slice_byte
  by_cases h : p + i ≤ a
  · simp only [if_pos h]
    have hlt := hin h
    rw [List.getElem?_eq_getElem hlt]
    rfl
  · simp [if_neg h]

/-- What `parse_u32` actually computes at an in-bounds start position: the
little-endian value in which every byte position past index
`d.length - 1 - p` is replaced by zero, even positions still inside the
buffer. -/
theorem parse_u32_characterization (d : List Nat) (p : Nat)
    (hw : d.length < USIZE_WRAP) (hp : p < d.length) :
    parse_u32 d p =
      some ((if p + 0 ≤ d.length - 1 - p then (d[p + 0]?).getD 0 else 0) +
            256 * (if p + 1 ≤ d.length - 1 - p then (d[p + 1]?).getD 0 else 0) +
            256 ^ 2 * (if p + 2 ≤ d.length - 1 - p then (d[p + 2]?).getD 0 else 0) +
            256 ^ 3 * (if p + 3 ≤ d.length - 1 - p then (d[p + 3]?).getD 0 else 0)) := by
  have hW : USIZE_WRAP = 18446744073709551616 := by unfold USIZE_WRAP; norm_num
  have h1 : wrapping_sub d.length 1 = d.length - 1 :=
    wrapping_sub_eq_sub (by omega) (by omega) (by omega)
  have h2 : wrapping_sub (d.length - 1) p = d.length - 1 - p :=
    wrapping_sub_eq_sub (by omega) (by omega) (by omega)
  have hin : ∀ i : Nat, p + i ≤ d.length - 1 - p → p + i < d.length := by omega
  have e0 := u32_slice_byte_eq d p (d.length - 1 - p) 0 (hin 0)
  have e1 := u32_slice_byte_eq d p (d.length - 1 - p) 1 (hin 1)
  have e2 := u32_slice_byte_eq d p (d.length - 1 - p) 2 (hin 2)
  have e3 := u32_slice_byte_eq d p (d.length - 1 - p) 3 (hin 3)
  unfold parse_u32
  rw [h1, h2]
  simp only [e0, e1, e2, e3]

/-- In-bounds reads of `parse_u16` match the zero-padded specification. -/
theorem parse_u16_in_bounds (d : List Nat) (p : Nat) (hle : p + 2 ≤ d.length) :
    parse_u16 d p = some (spec_zero_padded_le d p 2) := by
  unfold parse_u16
  rw [List.getElem?_eq_getElem (by omega), List.getElem?_eq_getElem (by omega)]
  unfold spec_zero_padded_le
  simp only [List.range_succ, List.range_zero, List.foldr_append, List.foldr_cons,
    List.foldr_nil, List.nil_append]
  rw [List.getElem?_eq_getElem (by omega : p + 0 < d.length),
      List.getElem?_eq_getElem (by omega : p + 1 < d.length)]
  simp
  ring

/-- Reads of `parse_u16` crossing the end of the buffer panic. -/
theorem parse_u16_out_of_bounds (d : List Nat) (p : Nat) (hlt : d.length < p + 2) :
    parse_u16 d p = none := by
  unfold parse_u16
  rw [List.getElem?_eq_none (by omega : d.length ≤ p + 1)]
  cases d[p]? <;> rfl

/-- At start position 0 (and only there) the padded slice of `parse_u32`
agrees with the zero-padded specification. -/
theorem parse_u32_zero_offset (d : List Nat) (hne : d ≠ []) (hw : d.length < USIZE_WRAP) :
    parse_u32 d 0 = some (spec_zero_padded_le d 0 4) := by
  have hp : 0 < d.length := by
    cases d with
    | nil => simp at hne
    | cons a l => simp
  rw [parse_u32_characterization d 0 hw hp]
  unfold spec_zero_padded_le
  have hb : ∀ i : Nat, (if 0 + i ≤ d.length - 1 - 0 then (d[0 + i]?).getD 0 else 0) =
      (d[0 + i]?).getD 0 := by
    intro i
    by_cases h : 0 + i ≤ d.length - 1 - 0
    · rw [if_pos h]
    · rw [if_neg h, List.getElem?_eq_none (by omega : d.length ≤ 0 + i)]
      rfl
  rw [hb 0, hb 1, hb 2, hb 3]
  simp [List.range_succ]
  ring

/-- In-bounds reads of `parse_u64` match the zero-padded specification. -/
theorem parse_u64_in_bounds (d : List Nat) (p : Nat) (hle : p + 8 ≤ d.length) :
    parse_u64 d p = some (spec_zero_padded_le d p 8) := by
  unfold parse_u64
  rw [List.getElem?_eq_getElem (show p < d.length by omega),
      List.getElem?_eq_getElem (show p + 1 < d.length by omega),
      List.getElem?_eq_getElem (show p + 2 < d.length by omega),
      List.getElem?_eq_getElem (show p + 3 < d.length by omega),
      List.getElem?_eq_getElem (show p + 4 < d.length by omega),
      List.getElem?_eq_getElem (show p + 5 < d.length by omega),
      List.getElem?_eq_getElem (show p + 6 < d.length by omega),
      List.getElem?_eq_getElem (show p + 7 < d.length by omega)]
  unfold spec_zero_padded_le
  simp only [List.range_succ, List.range_zero, List.foldr_append, List.foldr_cons,
    List.foldr_nil, List.nil_append]
  rw [List.getElem?_eq_getElem (show p + 0 < d.length by omega),
      List.getElem?_eq_getElem (show p + 1 < d.length by omega),
      List.getElem?_eq_getElem (show p + 2 < d.length by omega),
      List.getElem?_eq_getElem (show p + 3 < d.length by omega),
      List.getElem?_eq_getElem (show p + 4 < d.length by omega),
      List.getElem?_eq_getElem (show p + 5 < d.length by omega),
      List.getElem?_eq_getElem (show p + 6 < d.length by omega),
      List.getElem?_eq_getElem (show p + 7 < d.length by omega)]
  simp
  ring

/-- Reads of `parse_u64` crossing the end of the buffer panic. -/
theorem parse_u64_out_of_bounds (d : List Nat) (p : Nat) (hlt : d.length < p + 8) :
    parse_u64 d p = none := by
  unfold parse_u64
  rw [List.getElem?_eq_none (by omega : d.length ≤ p + 7)]
  cases d[p]? <;> cases d[p+1]? <;> cases d[p+2]? <;> cases d[p+3]? <;>
    cases d[p+4]? <;> cases d[p+5]? <;> cases d[p+6]? <;> rfl

/-- Relation of the signed 16-bit reader to the unsigned one. -/
theorem parse_i16_eq_map (d : List Nat) (p : Nat) :
    parse_i16 d p = (parse_u16 d p).map toI16 := by
  unfold parse_i16 parse_u16
  cases d[p]? <;> cases d[p+1]? <;> rfl

/-- Pointwise description of the argument-copy loop when every read is in
range. -/
theorem copy_args_spec (args : List DexValue) :
    ∀ (count : Nat) (regs : List DexValue) (i : Nat),
      (∀ k, k < count → (i + k) - 2 < args.length) →
      (∀ k, k < count → i + k < regs.length) →
      ∃ out, copy_args args regs i count = some out ∧
        out.length = regs.length ∧
        (∀ j, out[j]? = if i ≤ j ∧ j < i + count then args[j - 2]? else regs[j]?) := by
  intro count
  induction count with
  | zero =>
      intro regs i _ _
      refine ⟨regs, rfl, rfl, ?_⟩
      intro j
      rw [if_neg (by omega)]
  | succ n ih =>
      intro regs i hargs hregs
      have h0 : i - 2 < args.length := by have := hargs 0 (by omega); omega
      obtain ⟨v, hread⟩ : ∃ v, args[i - 2]? = some v := by
        rw [List.getElem?_eq_getElem h0]
        exact ⟨_, rfl⟩
      obtain ⟨out, hout, hlen, hpt⟩ := ih (regs.set i v) (i + 1)
        (fun k hk => by have := hargs (k + 1) (by omega); omega)
        (fun k hk => by have := hregs (k + 1) (by omega); simp only [List.length_set]; omega)
      refine ⟨out, ?_, by simpa using hlen, ?_⟩
      · unfold copy_args
        rw [hread]
        exact hout
      · intro j
        rw [hpt j]
        by_cases hji : j = i
        · subst hji
          rw [if_neg (by omega), if_pos (by omega)]
          rw [List.getElem?_set_self (by have := hregs 0 (by omega); omega)]
          rw [← hread]
        · by_cases hrange : i + 1 ≤ j ∧ j < i + 1 + n
          · rw [if_pos hrange, if_pos (by omega)]
          · rw [if_neg hrange, if_neg (by omega)]
            exact List.getElem?_set_ne (by omega)

/-- The argument-copy loop panics as soon as the highest read index is out of
range. -/
theorem copy_args_fail (args : List DexValue) :
    ∀ (count : Nat) (regs : List DexValue) (i : Nat),
      2 ≤ i → 1 ≤ count → args.length + 3 ≤ i + count →
      copy_args args regs i count = none := by
  intro count
  induction count with
  | zero =>
      intro regs i h2 hone hlen
      omega
  | succ n ih =>
      intro regs i h2 _hone hlen
      by_cases h : args.length ≤ i - 2
      · unfold copy_args
        rw [List.getElem?_eq_none h]
      · push_neg at h
        rcases Nat.eq_zero_or_pos n with hn | hn
        · omega
        · unfold copy_args
          obtain ⟨v, hread⟩ : ∃ v, args[i - 2]? = some v := by
            rw [List.getElem?_eq_getElem (by omega)]
            exact ⟨_, rfl⟩
          rw [hread]
          exact ih (regs.set i v) (i + 1) (by omega) (by omega) (by omega)

/-- Characterization of `push_frame_with_class` once the method lookup
succeeds. -/
theorem push_frame_with_class_eq (cls : DexClass) (class_idx : Nat) (name : List Nat)
    (args : List DexValue) (st : InterpState) (m : DexMethod)
    (hm : cls.methods.lookup name = some m) :
    push_frame_with_class cls class_idx name args st =
      match (if args.length > 0 then
               copy_args args (List.replicate m.registers .Null) 2 (m.registers - 2)
             else some (List.replicate m.registers .Null)) with
      | none => none
      | some registers =>
          some { st with frames := ⟨registers, none, class_idx, name, 0⟩ :: st.frames } := by
  unfold push_frame_with_class
  rw [hm]

/-- Executing a `Return` instruction produces the register's value as the
terminal value without touching the state. -/
theorem execute_return_step
    (env : Env) (fuel : Nat) (class_idx : Nat) (st : InterpState)
    (frame : Frame) (rest : List Frame) (reg : Nat) (v : DexValue)
    (hframes : st.frames = frame :: rest)
    (hreg : frame.registers[reg]? = some v) :
    interp env (fuel + 1) (.exec (.Return reg) class_idx st) = .done (some v) st := by
  rw [interp]
  simp only [hframes, hreg]

/-- Masking with 127 is reduction mod 128. -/
theorem land_127_eq_mod (b : Nat) : b &&& 127 = b % 128 := by
  have h := Nat.and_pow_two_sub_one_eq_mod b 7
  norm_num at h
  exact h

/-- The continuation bit of a small byte is clear. -/
theorem land_128_eq_zero {b : Nat} (h : b < 128) : b &&& 128 = 0 := by
  have h7 : b < 2 ^ 7 := h
  have := Nat.and_two_pow b 7
  rw [Nat.testBit_lt_two_pow h7] at this
  simpa using this

/-- The continuation bit of a small byte plus 128 is set. -/
theorem land_128_ne_zero (r : Nat) (h : r < 128) : (r + 128) &&& 128 ≠ 0 := by
  have ht : (r + 128).testBit 7 = true := by
    rw [Nat.testBit_to_div_mod]
    have h1 : (r + 128) / 2 ^ 7 = 1 := by
      have h2 : (2 : Nat) ^ 7 = 128 := by norm_num
      omega
    rw [h1]
    rfl
  have := Nat.and_two_pow (r + 128) 7
  rw [ht] at this
  norm_num at this
  omega

/-- Recombining the low seven bits and the remaining bits of a shifted
value. -/
theorem lor_split_7 (n s : Nat) :
    ((n % 128) <<< s) ||| ((n / 128) <<< (s + 7)) = n <<< s := by
  apply Nat.eq_of_testBit_eq
  intro i
  simp only [Nat.testBit_lor, Nat.testBit_shiftLeft]
  rcases Nat.lt_or_ge i s with hi | hi
  · simp [Nat.not_le.mpr hi, show ¬ (i ≥ s + 7) by omega]
  · rcases Nat.lt_or_ge i (s + 7) with hi7 | hi7
    · have h1 : (n % 128).testBit (i - s) = n.testBit (i - s) := by
        have h2 : (128 : Nat) = 2 ^ 7 := by norm_num
        rw [h2, Nat.testBit_mod_two_pow]
        simp [show i - s < 7 by omega]
      simp [hi, h1, show ¬ (i ≥ s + 7) by omega]
    · have h1 : (n % 128).testBit (i - s) = false := by
        apply Nat.testBit_lt_two_pow
        calc n % 128 < 128 := Nat.mod_lt _ (by norm_num)
        _ ≤ 2 ^ (i - s) := by
              have h2 : (128 : Nat) = 2 ^ 7 := by norm_num
              rw [h2]
              exact Nat.pow_le_pow_right (by norm_num) (by omega)
      have h2 : (n / 128).testBit (i - (s + 7)) = n.testBit (i - s) := by
        have h3 : n / 128 = n >>> 7 := by
          rw [Nat.shiftRight_eq_div_pow]
        rw [h3, Nat.testBit_shiftRight]
        congr 1
        omega
      simp [hi, hi7, h1, h2, show s ≤ i by omega, show s + 7 ≤ i by omega]

/-- Shifting keeps a power-of-two bound. -/
theorem shiftLeft_lt_two_pow {a s k : Nat} (ha : a < 2 ^ k) : a <<< s < 2 ^ (k + s) := by
  rw [Nat.shiftLeft_eq, Nat.pow_add]
  exact Nat.mul_lt_mul_of_lt_of_le ha (Nat.le_refl _) (Nat.two_pow_pos s)

/-- Running the decode loop over a canonical encoding accumulates the encoded
value (shifted into place) and consumes exactly the encoding. -/
theorem uleb_loop_encode :
    ∀ (n s acc : Nat) (rest : List Nat), s < 32 → n < 2 ^ (32 - s) →
      uleb_loop (encode_uleb128 n ++ rest) acc s =
        some (acc ||| (n <<< s), (encode_uleb128 n).length) := by
  intro n
  induction n using Nat.strong_induction_on with
  | _ n ih =>
    intro s acc rest hs hn
    by_cases h128 : n < 128
    · rw [encode_uleb128, if_pos h128]
      show uleb_loop (n :: rest) acc s = _
      unfold uleb_loop
      rw [land_128_eq_zero h128]
      simp only [if_pos rfl]
      have hmod : ((n &&& 127) <<< (s % 32)) % 2 ^ 32 = n <<< s := by
        rw [land_127_eq_mod, Nat.mod_eq_of_lt h128, Nat.mod_eq_of_lt hs]
        apply Nat.mod_eq_of_lt
        have := shiftLeft_lt_two_pow (a := n) (s := s) (k := 32 - s) hn
        have h2 : 32 - s + s = 32 := by omega
        rw [h2] at this
        exact this
      rw [hmod]
      simp
    · push_neg at h128
      have hslt : s < 25 := by
        by_contra hge
        push_neg at hge
        have : (2 : Nat) ^ (32 - s) ≤ 2 ^ 7 :=
          Nat.pow_le_pow_right (by norm_num) (by omega)
        norm_num at this
        omega
      rw [encode_uleb128, if_neg (by omega)]
      show uleb_loop ((n % 128 + 128) :: (encode_uleb128 (n / 128) ++ rest)) acc s = _
      unfold uleb_loop
      rw [if_neg (land_128_ne_zero (n % 128) (Nat.mod_lt _ (by norm_num)))]
      have hmod : (((n % 128 + 128) &&& 127) <<< (s % 32)) % 2 ^ 32 = (n % 128) <<< s := by
        rw [land_127_eq_mod, Nat.add_mod_right,
            Nat.mod_eq_of_lt (Nat.mod_lt n (by norm_num) : n % 128 < 128),
            Nat.mod_eq_of_lt hs]
        apply Nat.mod_eq_of_lt
        have hb : n % 128 < 2 ^ (32 - s) := by
          have h7 : (2 : Nat) ^ 7 ≤ 2 ^ (32 - s) :=
            Nat.pow_le_pow_right (by norm_num) (by omega)
          have := Nat.mod_lt n (show 0 < 128 by norm_num)
          norm_num at h7
          omega
        have := shiftLeft_lt_two_pow (a := n % 128) (s := s) (k := 32 - s) hb
        have h2 : 32 - s + s = 32 := by omega
        rw [h2] at this
        exact this
      rw [hmod]
      have hdivlt : n / 128 < n := Nat.div_lt_self (by omega) (by norm_num)
      have hdivbound : n / 128 < 2 ^ (32 - (s + 7)) := by
        rw [Nat.div_lt_iff_lt_mul (by norm_num : (0:Nat) < 128)]
        have h2 : (2 : Nat) ^ (32 - (s + 7)) * 128 = 2 ^ (32 - s) := by
          have h3 : (128 : Nat) = 2 ^ 7 := by norm_num
          rw [h3, ← Nat.pow_add]
          congr 1
          omega
        rw [h2]
        exact hn
      rw [ih (n / 128) hdivlt (s + 7) (acc ||| (n % 128) <<< s) rest (by omega) hdivbound]
      show some ((acc ||| (n % 128) <<< s ||| (n / 128) <<< (s + 7),
        (encode_uleb128 (n / 128)).length).1,
        (acc ||| (n % 128) <<< s ||| (n / 128) <<< (s + 7),
        (encode_uleb128 (n / 128)).length).2 + 1) = _
      simp only []
      rw [Nat.lor_assoc, lor_split_7]
      rfl

/-- Debug escaping keeps plain printable ASCII bytes unchanged. -/
theorem escape_debug_byte_plain {b : Nat} (h1 : 0x20 ≤ b) (h2 : b < 0x7F)
    (h3 : b ≠ 0x22) (h4 : b ≠ 0x5C) : escape_debug_byte b = [b] := by
  unfold escape_debug_byte
  rw [if_neg h3, if_neg h4, if_neg (by omega), if_neg (by omega), if_neg (by omega),
      if_neg (by omega), if_neg (by omega)]

/-- An ASCII byte keeps the UTF-8 automaton in its accepting state. -/
theorem utf8_step_ascii {b : Nat} (hb : b < 0x80) : utf8_step 0 b = 0 := by
  unfold utf8_step
  rw [if_pos rfl, if_pos hb]

/-- Two ASCII bytes form a valid UTF-8 sequence. -/
theorem utf8_valid_two_ascii {b4 b5 : Nat} (h4 : b4 < 0x80) (h5 : b5 < 0x80) :
    utf8_valid [b4, b5] = true := by
  unfold utf8_valid
  show utf8_valid_from (utf8_step 0 b4) [b5] = true
  rw [utf8_step_ascii h4]
  show utf8_valid_from (utf8_step 0 b5) [] = true
  rw [utf8_step_ascii h5]
  rfl

/-! ## Claim theorems -/

/-- Claim C1 (scenario S4).  Executing the instruction bytes `12 F0 0F 00` in
a frame with one register runs to completion, but the decoder does NOT
sign-extend the const/4 literal nibble: the byte shift in the source is a
logical shift on an unsigned byte, so the nibble `0xF` decodes to `+15` and
the produced value is `Int 15`, not `Int (-1)` as the specification states.
This theorem records the actual behaviour of the code at the claim's
input. -/
theorem s4_const4_zero_extends_and_returns_15 :
    parse_instructions [0x12, 0xF0, 0x0F, 0x00] = some [.Const4Bit 0 15, .Return 0] ∧
    run_with_class env0 10 s4_class 0 s4_state = .done (some (.Int 15)) emptyState ∧
    (15 : ℤ) ≠ -1 := by
  refine ⟨by rfl, by rfl, by decide⟩

/-- Claim C2, counterexample.  A callee executing a return on top of a
caller frame: the run loop pops the callee and returns the terminal value
`Object 1` to its (Rust-level) caller, while the caller frame's
pending-result slot stays empty — the value is never stored there, contrary
to the claim. -/
theorem return_value_not_stored_in_caller_temp :
    run_with_class env0 10 c2_class 0 c2_state =
      .done (some (.Object 1)) { c2_state with frames := [c2_caller_frame] } ∧
    c2_caller_frame.temp = none := ⟨by rfl, rfl⟩

/-- Claim C2, amended.  First conjunct: when the instruction at the top
frame's program counter is a `Return` (at a non-zero pc, with the register in
range), the run loop pops exactly the returning frame and hands the
register's value back as the result of `run_with_class`; every other frame —
in particular the caller frame and its pending-result slot — is left
unchanged.  Second conjunct: the `invoke-direct` handler, which drives the
nested run of the callee to completion, DISCARDS the value that run
delivers: whatever value `r` the callee produced, the instruction's own
result is `none` and the state is exactly what the nested run left (the
caller's pending-result slot is never written with `r`). -/
theorem return_hands_value_to_rust_caller :
    (∀ (env : Env) (fuel : Nat) (cls : DexClass) (class_idx : Nat) (st : InterpState)
       (frame : Frame) (rest : List Frame) (m : DexMethod) (reg : Nat) (v : DexValue),
       st.frames = frame :: rest →
       cls.methods.lookup frame.method_name = some m →
       frame.pc ≠ 0 →
       m.instructions[frame.pc]? = some (.Return reg) →
       frame.registers[reg]? = some v →
       run_with_class env (fuel + 2) cls class_idx st =
         .done (some v) { st with frames := rest }) ∧
    (∀ (env : Env) (fuel argc : Nat) (args : List Nat) (method_idx class_idx : Nat)
       (st : InterpState) (frame : Frame) (rest : List Frame)
       (mn cn : List Nat) (cidx : Nat) (loaded : DexClass) (call_args : List DexValue)
       (st1 : InterpState) (r : Option DexValue) (st2 : InterpState),
       st.frames = frame :: rest →
       invoke_prologue st method_idx = some (some (mn, cn, cidx)) →
       contains_sub cn (ascii "Ljava/lang/") = false →
       env.classStore cn = some loaded →
       args.mapM (fun a => frame.registers[a]?) = some call_args →
       push_frame_with_class loaded cidx mn call_args st = some st1 →
       interp env fuel (.run loaded cidx st1) = .done r st2 →
       execute env (fuel + 1) (.InvokeDirect argc args method_idx) class_idx st =
         .done none st2) := by
  constructor
  · intro env fuel cls class_idx st frame rest m reg v hframes hm hpc hinstr hreg
    have hlt : frame.pc < m.instructions.length := by
      rcases List.getElem?_eq_some.mp hinstr with ⟨h, _⟩
      exact h
    show interp env (fuel + 1 + 1) (.run cls class_idx st) = _
    rw [interp]
    simp only [hframes, hm, hpc, if_false, Nat.not_le.mpr hlt]
    simp only [hinstr]
    rw [execute_return_step env fuel class_idx _
      ⟨frame.registers, frame.temp, frame.class_idx, frame.method_name, frame.pc + 1⟩
      rest reg v rfl hreg]
    simp only [set_top_frame, List.tail_cons]
  · intro env fuel argc args method_idx class_idx st frame rest mn cn cidx loaded
      call_args st1 r st2 hframes hpro hcn hcs hargs hpush hrun
    show interp env (fuel + 1) (.exec (.InvokeDirect argc args method_idx) class_idx st) =
      .done none st2
    rw [interp]
    simp only [hframes, hpro, hcn, Bool.false_eq_true, if_false, hcs, hargs, hpush, hrun]

/-- Witness for the amended claim C2: a concrete two-frame `return` (the
value reaches the Rust caller, the caller frame's pending-result slot stays
empty), and a concrete `invoke-direct` whose callee returns `Object 1` —
the instruction's result is `none` and the caller's state is returned
unchanged, the callee's value discarded. -/
theorem return_hands_value_witness :
    (run_with_class env0 2 w2_class 0 w2_state =
       .done (some (.Int 7)) { w2_state with frames := [c2_caller_frame] } ∧
     c2_caller_frame.temp = none) ∧
    execute d2_env 4 (.InvokeDirect 0 [] 0) 0 d2_state = .done none d2_state := by
  refine ⟨⟨?_, rfl⟩, ?_⟩
  · exact return_hands_value_to_rust_caller.1 env0 0 w2_class 0 w2_state w2_frame
      [c2_caller_frame] w2_method 0 (.Int 7) rfl rfl (by decide) rfl rfl
  · exact return_hands_value_to_rust_caller.2 d2_env 3 0 [] 0 0 d2_state c2_caller_frame []
      (ascii "callee") (ascii "LC;") 0 c2_class [] d2_st1 (some (.Object 1)) d2_state
      rfl rfl rfl rfl rfl rfl rfl

/-- Claim C3, counterexample.  For the magic `64 65 78 0A 30 33 38 00` the
bridge returns the bytes of the string `vOk("03")` — the debug formatting
of the UTF-8 decode applied to the two-byte slice of magic bytes 4..5 — and
the three digits `038` do not occur in it. -/
theorem get_dex_version_lacks_038 :
    rustGetDexVersion [0x64, 0x65, 0x78, 0x0A, 0x30, 0x33, 0x38, 0x00] =
      some (ascii "vOk(\"03\")") ∧
    contains_sub (ascii "vOk(\"03\")") (ascii "038") = false := ⟨by rfl, by rfl⟩

/-- Claim C3, amended.  `get_dex_version` returns `v` followed by the debug
formatting of the UTF-8 decode of magic bytes 4..5 — only the first TWO
digit bytes of the version, wrapped as `Ok("..")` — so for plain printable
bytes `b4 b5` the result is exactly `vOk("<b4><b5>")`. -/
theorem get_dex_version_two_digit_format (m0 m1 m2 m3 b4 b5 : Nat) (rest : List Nat)
    (h4a : 0x20 ≤ b4) (h4b : b4 < 0x7F) (h4c : b4 ≠ 0x22) (h4d : b4 ≠ 0x5C)
    (h5a : 0x20 ≤ b5) (h5b : b5 < 0x7F) (h5c : b5 ≠ 0x22) (h5d : b5 ≠ 0x5C) :
    rustGetDexVersion (m0 :: m1 :: m2 :: m3 :: b4 :: b5 :: rest) =
      some [0x76, 0x4F, 0x6B, 0x28, 0x22, b4, b5, 0x22, 0x29] := by
  unfold rustGetDexVersion
  rw [if_neg (by simp)]
  have hslice : ((m0 :: m1 :: m2 :: m3 :: b4 :: b5 :: rest).drop 4).take 2 = [b4, b5] := by
    simp [List.drop, List.take]
  rw [hslice, if_pos (utf8_valid_two_ascii (by omega) (by omega))]
  unfold debug_ok_string
  rw [show ([b4, b5].flatMap escape_debug_byte) = [b4, b5] by
    simp [List.flatMap, escape_debug_byte_plain h4a h4b h4c h4d,
      escape_debug_byte_plain h5a h5b h5c h5d]]
  rfl

/-- Witness for the amended claim C3 at the S1 magic. -/
theorem get_dex_version_two_digit_format_witness :
    rustGetDexVersion [0x64, 0x65, 0x78, 0x0A, 0x30, 0x33, 0x38, 0x00] =
      some [0x76, 0x4F, 0x6B, 0x28, 0x22, 0x30, 0x33, 0x22, 0x29] :=
  get_dex_version_two_digit_format 0x64 0x65 0x78 0x0A 0x30 0x33 [0x38, 0x00]
    (by norm_num) (by norm_num) (by norm_num) (by norm_num)
    (by norm_num) (by norm_num) (by norm_num) (by norm_num)

/-- Claim C4.  A successful frame push allocates exactly `method.registers`
registers, every register not covered by an argument holds null, and
argument `a[k]` lands at register index `2 + k` (the window starts at
register 2).  The push succeeds when the argument vector is empty or covers
the window. -/
theorem push_frame_register_window (cls : DexClass) (class_idx : Nat) (name : List Nat)
    (args : List DexValue) (st : InterpState) (m : DexMethod)
    (hm : cls.methods.lookup name = some m)
    (hfit : args = [] ∨ m.registers ≤ args.length + 2) :
    ∃ st1 f, push_frame_with_class cls class_idx name args st = some st1 ∧
      st1.frames = f :: st.frames ∧
      f.registers.length = m.registers ∧
      (∀ j, j < m.registers → (j < 2 ∨ 2 + args.length ≤ j) → f.registers[j]? = some .Null) ∧
      (∀ k, k < args.length → 2 + k < m.registers → f.registers[2 + k]? = args[k]?) := by
  rw [push_frame_with_class_eq cls class_idx name args st m hm]
  rcases hfit with hnil | hfit2
  · subst hnil
    simp only [List.length_nil, gt_iff_lt, Nat.lt_irrefl, if_false]
    refine ⟨_, ⟨List.replicate m.registers .Null, none, class_idx, name, 0⟩, rfl, rfl, ?_, ?_, ?_⟩
    · simp
    · intro j hj _
      simp [List.getElem?_replicate, hj]
    · intro k hk _
      simp at hk
  · by_cases hnil : args = []
    · subst hnil
      simp only [List.length_nil, gt_iff_lt, Nat.lt_irrefl, if_false]
      refine ⟨_, ⟨List.replicate m.registers .Null, none, class_idx, name, 0⟩,
        rfl, rfl, ?_, ?_, ?_⟩
      · simp
      · intro j hj _
        simp [List.getElem?_replicate, hj]
      · intro k hk _
        simp at hk
    · have hpos : 0 < args.length := List.length_pos.mpr hnil
      obtain ⟨out, hout, hlen, hpt⟩ := copy_args_spec args (m.registers - 2)
        (List.replicate m.registers .Null) 2
        (fun k hk => by omega)
        (fun k hk => by simp only [List.length_replicate]; omega)
      rw [if_pos hpos, hout]
      refine ⟨_, ⟨out, none, class_idx, name, 0⟩, rfl, rfl, ?_, ?_, ?_⟩
      · simpa using hlen
      · intro j hj hside
        rw [hpt j, if_neg (by omega), List.getElem?_replicate, if_pos hj]
      · intro k hk h2k
        rw [hpt (2 + k), if_pos (by omega)]
        congr 1
        omega

/-- Witness for claim C4: pushing a 4-register method with two arguments. -/
theorem push_frame_register_window_witness :
    ∃ st1 f, push_frame_with_class c4_class 0 (ascii "m4") [.Int 1, .Int 2] emptyState =
        some st1 ∧
      st1.frames = f :: emptyState.frames ∧
      f.registers.length = c4_method.registers ∧
      (∀ j, j < c4_method.registers →
        (j < 2 ∨ 2 + ([DexValue.Int 1, DexValue.Int 2]).length ≤ j) →
        f.registers[j]? = some .Null) ∧
      (∀ k, k < ([DexValue.Int 1, DexValue.Int 2]).length → 2 + k < c4_method.registers →
        f.registers[2 + k]? = [DexValue.Int 1, DexValue.Int 2][k]?) :=
  push_frame_register_window c4_class 0 (ascii "m4") [.Int 1, .Int 2] emptyState c4_method
    (by rfl) (Or.inr (by decide))

/-- Claim C5, counterexample.  An out-of-range register reference
(`const/4 v1` in a one-register frame) and a missing string-pool entry in
`const-string` are both fatal panics, not logged-and-continue conditions as
the claim states. -/
theorem out_of_range_register_and_missing_string_fatal :
    execute env0 1 (.Const4Bit 1 15) 0 s4_state = .panic ∧
    execute env0 1 (.ConstString 0 5) 0 s4_state = .panic := ⟨by rfl, by rfl⟩

/-- Claim C5, amended.  Unimplemented opcodes are genuinely non-fatal no-ops
(the state is returned unchanged), and a missing constant-pool entry reached
through a checked lookup (here: a method-id whose name index is absent from
the string-id table, in `invoke-super`) is skipped non-fatally; but — per the
counterexample — out-of-range registers and the unchecked `const-string`
string lookup panic. -/
theorem unimplemented_and_checked_missing_pool_nonfatal
    (env : Env) (fuel : Nat) (class_idx : Nat) (st : InterpState)
    (frame : Frame) (rest : List Frame)
    (hframes : st.frames = frame :: rest) :
    (execute env (fuel + 1) .Nop class_idx st = .done none st) ∧
    (∀ dst a b, execute env (fuel + 1) (.AddInt dst a b) class_idx st = .done none st) ∧
    (∀ argc args method_idx c mitem,
        st.container = some c →
        c.method_id_items[method_idx]? = some mitem →
        c.string_id_items[mitem.name_idx]? = none →
        execute env (fuel + 1) (.InvokeSuper argc args method_idx) class_idx st =
          .done none st) := by
  refine ⟨?_, ?_, ?_⟩
  · show interp env (fuel + 1) _ = _
    rw [interp]
    simp only [hframes]
  · intro dst a b
    show interp env (fuel + 1) _ = _
    rw [interp]
    simp only [hframes]
  · intro argc args method_idx c mitem hc hmi hso
    have hpro : invoke_prologue st method_idx = some none := by
      unfold invoke_prologue DexContainer.string_offset
      simp only [hc, hmi, hso]
    show interp env (fuel + 1) _ = _
    rw [interp]
    simp only [hframes, hpro]

/-- Witness for the amended claim C5: a `nop` and an `invoke-super` with a
missing method-name string, both non-fatal and state-preserving. -/
theorem unimplemented_nonfatal_witness :
    execute env0 1 .Nop 0 c5_state = .done none c5_state ∧
    execute env0 1 (.InvokeSuper 0 [] 0) 0 c5_state = .done none c5_state := by
  constructor
  · exact (unimplemented_and_checked_missing_pool_nonfatal env0 0 0 c5_state s4_frame [] rfl).1
  · exact (unimplemented_and_checked_missing_pool_nonfatal env0 0 0 c5_state s4_frame [] rfl).2.2
      0 [] 0 c5_container ⟨0, 0, 0⟩ rfl rfl rfl

/-- Claim C6, counterexample.  `parse_u16` panics instead of zero-padding a
read past the end (`parse_u16 [5] 0 = none`, the specification's zero-padded
reading gives 5), and `parse_u32` at position 1 of `[1, 2, 3, 4]` returns 770
(it zeroes the in-bounds bytes at indices 2 and 3) instead of the
specification's 262914. -/
theorem fixed_width_readers_not_zero_padded :
    parse_u16 [5] 0 = none ∧
    spec_zero_padded_le [5] 0 2 = 5 ∧
    parse_u32 [1, 2, 3, 4] 1 = some 770 ∧
    spec_zero_padded_le [1, 2, 3, 4] 1 4 = 262914 ∧
    (770 : Nat) ≠ 262914 := by
  refine ⟨by rfl, by rfl, by rfl, by rfl, by decide⟩

/-- Claim C6, amended.  Only `parse_u32`/`parse_i32` zero-pad, and their
padding bound `(d.length - 1) - p` matches the specification only at start
position 0 (on a non-empty buffer): at position `p` every byte past index
`d.length - 1 - p` reads as zero, in-bounds bytes included.  `parse_u16`,
`parse_i16` and `parse_u64` read their bytes directly and panic when any
position is past the end. -/
theorem fixed_width_readers_actual_tolerance :
    (∀ (d : List Nat) (p : Nat), d.length < USIZE_WRAP → p < d.length →
        parse_u32 d p =
          some ((if p + 0 ≤ d.length - 1 - p then (d[p + 0]?).getD 0 else 0) +
                256 * (if p + 1 ≤ d.length - 1 - p then (d[p + 1]?).getD 0 else 0) +
                256 ^ 2 * (if p + 2 ≤ d.length - 1 - p then (d[p + 2]?).getD 0 else 0) +
                256 ^ 3 * (if p + 3 ≤ d.length - 1 - p then (d[p + 3]?).getD 0 else 0))) ∧
    (∀ d : List Nat, d ≠ [] → d.length < USIZE_WRAP →
        parse_u32 d 0 = some (spec_zero_padded_le d 0 4)) ∧
    (∀ (d : List Nat) (p : Nat), p + 2 ≤ d.length →
        parse_u16 d p = some (spec_zero_padded_le d p 2)) ∧
    (∀ (d : List Nat) (p : Nat), d.length < p + 2 → parse_u16 d p = none) ∧
    (∀ (d : List Nat) (p : Nat), p + 8 ≤ d.length →
        parse_u64 d p = some (spec_zero_padded_le d p 8)) ∧
    (∀ (d : List Nat) (p : Nat), d.length < p + 8 → parse_u64 d p = none) ∧
    (∀ (d : List Nat) (p : Nat), parse_i16 d p = (parse_u16 d p).map toI16) ∧
    (∀ (d : List Nat) (p : Nat), parse_i32 d p = (parse_u32 d p).map toI32) :=
  ⟨parse_u32_characterization, parse_u32_zero_offset, parse_u16_in_bounds,
   parse_u16_out_of_bounds, parse_u64_in_bounds, parse_u64_out_of_bounds,
   parse_i16_eq_map, fun _ _ => rfl⟩

/-- Witness for the amended claim C6. -/
theorem fixed_width_readers_tolerance_witness :
    parse_u16 [7, 8] 0 = some 2055 ∧ parse_u32 [9] 0 = some 9 := by
  constructor
  · exact (fixed_width_readers_actual_tolerance.2.2.1 [7, 8] 0 (by decide)).trans (by rfl)
  · refine (fixed_width_readers_actual_tolerance.2.1 [9] (by decide) ?_).trans (by rfl)
    unfold USIZE_WRAP
    norm_num

/-- Claim C7.  The string decoder: given an in-range offset and a successful
ULEB length read, it returns the bytes accumulated up to the NUL terminator
with each `C0 80` pair replaced by a single NUL, passed through the
UTF-8-or-sentinel step; `C0 80` replacement, the sentinel on invalid UTF-8,
and scenario S3 (`03 61 C0 80 62 00` decodes to `a\x00b`) are each recorded
explicitly. -/
theorem string_decoder_c080_nul_and_sentinel :
    (∀ (data : List Nat) (so : Nat) (hdr : Header_Item) (i sz cursor : Nat),
        hdr.data_off ≤ so →
        read_uleb128 data (so - hdr.data_off) = some (sz, cursor) →
        parse_string_at_offset data so hdr i =
          some (i, utf8_or_sentinel (collect_string_bytes (data.drop cursor)))) ∧
    (∀ ys : List Nat, collect_string_bytes (0xC0 :: 0x80 :: ys) = 0 :: collect_string_bytes ys) ∧
    (∀ bytes : List Nat, utf8_valid bytes = false → utf8_or_sentinel bytes = utf8_fail_sentinel) ∧
    parse_string_at_offset [0x03, 0x61, 0xC0, 0x80, 0x62, 0x00] 0 { magic := [] } 0 =
      some (0, [0x61, 0x00, 0x62]) ∧
    parse_string_at_offset [0x01, 0xFF, 0x00] 0 { magic := [] } 0 =
      some (0, utf8_fail_sentinel) := by
  refine ⟨?_, ?_, ?_, by rfl, by rfl⟩
  · intro data so hdr i sz cursor hle huleb
    unfold parse_string_at_offset
    rw [if_neg (by omega), huleb]
  · intro ys
    rfl
  · intro bytes hinv
    unfold utf8_or_sentinel
    rw [hinv]
    rfl

/-- Witness for claim C7 at the S3 bytes. -/
theorem string_decoder_witness :
    parse_string_at_offset [0x03, 0x61, 0xC0, 0x80, 0x62, 0x00] 0 { magic := [] } 0 =
      some (0, [0x61, 0x00, 0x62]) := by
  have h := string_decoder_c080_nul_and_sentinel.1 [0x03, 0x61, 0xC0, 0x80, 0x62, 0x00] 0
    { magic := [] } 0 3 1 (by decide) (by rfl)
  exact h.trans (by rfl)

/-- Claim C8.  ULEB128 round-trip: decoding the canonical encoding of any
32-bit value at the position where it starts yields the value and the
position immediately after the encoding; and scenario S2 (`E5 8E 26` decodes
to 624485 with cursor 3). -/
theorem uleb128_roundtrip :
    (∀ (n : Nat), n < 2 ^ 32 → ∀ (data rest : List Nat) (offset : Nat),
        data.drop offset = encode_uleb128 n ++ rest →
        read_uleb128 data offset = some (n, offset + (encode_uleb128 n).length)) ∧
    read_uleb128 [0xE5, 0x8E, 0x26] 0 = some (624485, 3) := by
  constructor
  · intro n hn data rest offset hdrop
    unfold read_uleb128
    rw [hdrop, uleb_loop_encode n 0 0 rest (by norm_num) (by simpa using hn)]
    simp [Nat.zero_or, Nat.shiftLeft_zero]
  · rfl

/-- Witness for claim C8: the S2 bytes and a one-byte encoding inside a
larger buffer. -/
theorem uleb128_roundtrip_witness :
    read_uleb128 [0xE5, 0x8E, 0x26] 0 = some (624485, 3) ∧
    read_uleb128 [0x90, 0x01, 0xFF] 1 = some (1, 2) := by
  constructor
  · exact uleb128_roundtrip.2
  · have h := uleb128_roundtrip.1 1 (by norm_num) [0x90, 0x01, 0xFF] [0xFF] 1 (by
      rw [encode_uleb128]
      rfl)
    rw [h]
    rw [encode_uleb128]
    rfl

/-- Claim C9.  A leading byte whose 5-bit type tag is outside the recognized
set decodes as `Null` with the cursor advanced by exactly one byte, with no
error. -/
theorem unknown_encoded_value_tag_decodes_null
    (data : List Nat) (offset : Nat) (container : DexContainer) (byte : Nat)
    (hread : data[offset]? = some byte)
    (htag : (byte &&& 0x1f) ∉ recognized_tags) :
    parse_encoded_value data offset container = some (.Null, offset + 1) := by
  simp only [recognized_tags, List.mem_cons, List.not_mem_nil, or_false, not_or] at htag
  obtain ⟨h0, h2, h3, h4, h6, h10, h11, h17, h18, h1e, h1f⟩ := htag
  simp [parse_encoded_value, hread, h0, h2, h3, h4, h6, h10, h11, h17, h18, h1e, h1f]

/-- Witness for claim C9 at tag byte `0x05`. -/
theorem unknown_encoded_value_tag_decodes_null_witness :
    parse_encoded_value [0x05] 0
      ⟨{ magic := [] }, [], [], [], [], [], []⟩ = some (.Null, 1) :=
  unknown_encoded_value_tag_decodes_null [0x05] 0 ⟨{ magic := [] }, [], [], [], [], [], []⟩ 0x05
    (by rfl) (by decide)

/-- Claim C10.  The implicit precondition of the frame push: with a non-empty
argument vector the push succeeds exactly when `method.registers - 2` does
not exceed the number of arguments (the copy loop reads one argument for
every register index from 2 up to `method.registers - 1`); with an empty
vector no copy is attempted and all registers stay null, whatever the
register count. -/
theorem push_frame_argument_precondition (cls : DexClass) (class_idx : Nat) (name : List Nat)
    (args : List DexValue) (st : InterpState) (m : DexMethod)
    (hm : cls.methods.lookup name = some m) :
    (args ≠ [] → ((push_frame_with_class cls class_idx name args st).isSome ↔
        m.registers - 2 ≤ args.length)) ∧
    (args = [] → push_frame_with_class cls class_idx name args st =
        some { st with frames :=
          ⟨List.replicate m.registers .Null, none, class_idx, name, 0⟩ :: st.frames }) := by
  constructor
  · intro hne
    have hpos : 0 < args.length := List.length_pos.mpr hne
    rw [push_frame_with_class_eq cls class_idx name args st m hm, if_pos hpos]
    constructor
    · intro hsome
      by_contra hgt
      push_neg at hgt
      rw [copy_args_fail args (m.registers - 2) (List.replicate m.registers .Null) 2
        (by omega) (by omega) (by omega)] at hsome
      simp at hsome
    · intro hle
      obtain ⟨out, hout, _, _⟩ := copy_args_spec args (m.registers - 2)
        (List.replicate m.registers .Null) 2
        (fun k hk => by omega)
        (fun k hk => by simp only [List.length_replicate]; omega)
      rw [hout]
      rfl
  · intro hnil
    subst hnil
    rw [push_frame_with_class_eq cls class_idx name [] st m hm]
    simp only [List.length_nil, gt_iff_lt, Nat.lt_irrefl, if_false]

/-- Witness for claim C10: a 4-register method rejects a single argument and
accepts the empty argument vector. -/
theorem push_frame_argument_precondition_witness :
    ((push_frame_with_class c4_class 0 (ascii "m4") [.Int 1] emptyState).isSome ↔
      c4_method.registers - 2 ≤ 1) ∧
    push_frame_with_class c4_class 0 (ascii "m4") [] emptyState =
      some { emptyState with
        frames := [⟨List.replicate c4_method.registers .Null, none, 0, ascii "m4", 0⟩] } := by
  constructor
  · exact (push_frame_argument_precondition c4_class 0 (ascii "m4") [.Int 1] emptyState
      c4_method (by rfl)).1 (List.cons_ne_nil _ _)
  · exact (push_frame_argument_precondition c4_class 0 (ascii "m4") [] emptyState
      c4_method (by rfl)).2 rfl

end Mihonx
